import Mathlib

/-!
# Winograd transform functors of the OpenCL backend

Shallow embedding of `mace/kernels/opencl/winograd_transform.cc`:
the forward functor `WinogradTransformFunctor::operator()` and the inverse
functor `WinogradInverseTransformFunctor::operator()`.

Conventions of the embedding

* `int` is the signed 32-bit type and `index_t` the signed 64-bit type; their
  values are integers (`Int`), and a sum or product that leaves the range of
  its type wraps around in two's complement, as the compiled code does
  (`wrap_int32`, `wrap_int64`).  The C++ quotient `/` on signed operands is
  `Int.tdiv` (truncation toward zero).
* `uint32_t` values are natural numbers below `2^32`; the conversion
  `static_cast<uint32_t>` is `static_cast_uint32`, reduction modulo `2^32`,
  and `uint32_t` products are reduced modulo `2^32` as well.
* `std::set<std::string>` is `Finset String`, and `emplace` is `insert`.
* Every call on a collaborator with an effect (`ResizeImage`, `BuildKernel`,
  `setArg`, `LOG(FATAL)`, `TuningOrRun2DKernel`) is recorded, in program
  order, in the trace of the invocation.
* Functions that the translation unit only calls (shape calculator, image
  shape helper, symbol obfuscation, type-name helpers, program builder) are
  fields of `Collaborators`.
-/

namespace mace
namespace kernels

/-! ## Machine integers -/

/-- The result of an `int` operation whose exact value is `x`: `x` brought into
`[-2^31, 2^31)` modulo `2^32`. -/
def wrap_int32 (x : Int) : Int := (x + 2147483648) % 4294967296 - 2147483648

/-- The result of an `index_t` operation whose exact value is `x`: `x` brought
into `[-2^63, 2^63)` modulo `2^64`. -/
def wrap_int64 (x : Int) : Int :=
  (x + 9223372036854775808) % 18446744073709551616 - 9223372036854775808

/-- The conversion `static_cast<uint32_t>(x)` of a signed value: `x` modulo `2^32`. -/
def static_cast_uint32 (x : Int) : Nat := (x % 4294967296).toNat

/-- Product of two `uint32_t` values, as computed by `round_h * round_w` on
`uint32_t` operands: reduced modulo `2^32`. -/
def uint32_mul (a b : Nat) : Nat := (a * b) % 4294967296

/-- Modelled from the spec: the helper `RoundUpDiv4` (defined outside this
translation unit), which the spec describes as `ceil(channels/4)`. -/
def RoundUpDiv4 (i : Int) : Int := (i + 3) / 4

/-! ## Enumerations used by the functors -/

/-- The element types the functors are instantiated for (`float` and `half`). -/
inductive DataType where
  | DT_FLOAT
  | DT_HALF
deriving DecidableEq, Repr

/-- The image layouts named in the calls of `CalImage2DShape`. -/
inductive BufferType where
  | IN_OUT_CHANNEL
  | IN_OUT_HEIGHT
deriving DecidableEq, Repr

/-- The rounding modes of `CalcOutputSize`; the forward functor passes `FLOOR`. -/
inductive RoundType where
  | FLOOR
  | CEIL
deriving DecidableEq, Repr

/-- Modelled from the spec: the padding policy enumeration (declared outside
this translation unit); the spec names the policies SAME and VALID. -/
inductive Padding where
  | VALID
  | SAME
deriving DecidableEq, Repr

/-- Modelled from the spec: the activation kind (declared outside this
translation unit), a closed enumeration of six kinds.  The member
`activation_` is an enumeration object and can hold a value that matches none
of the six case labels; `UNKNOWN raw` is such a value, `raw` being the
number that `LOG(FATAL)` prints. -/
inductive ActivationType where
  | NOOP
  | RELU
  | RELUX
  | PRELU
  | TANH
  | SIGMOID
  | UNKNOWN (raw : Int)
deriving DecidableEq, Repr

/-! ## Tensors, kernels and the trace of an invocation -/

/-- Modelled from the spec: the `Tensor` class (declared outside this
translation unit): a logical shape, the derived 2-D image shape, and the
device image the tensor owns (`opencl_image()`), named by a number. -/
structure Tensor where
  opencl_image : Nat
  shape : List Int
  image_shape : List Nat
deriving DecidableEq, Repr

/-- The accessor `dim(i)` of a tensor; the functors read dimensions 0 to 3 of
four-dimensional tensors (a missing dimension reads as 0 here). -/
def Tensor.dim (t : Tensor) (i : Nat) : Int := t.shape.getD i 0

/-- Modelled from the spec: `Tensor::ResizeImage(shape, image_shape)` gives the
tensor the logical shape and the image shape it is called with. -/
def Tensor.ResizeImage (t : Tensor) (shape : List Int) (image_shape : List Nat) : Tensor :=
  { t with shape := shape, image_shape := image_shape }

/-- The member `relux_max_limit_`: a floating-point number that the functor
forwards to the kernel unchanged; it is carried as a token. -/
structure ClampLimit where
  token : Nat
deriving DecidableEq, Repr

/-- A value passed to `cl::Kernel::setArg`. -/
inductive KernelArg where
  | image (opencl_image : Nat)
  | uint32 (value : Nat)
  | limit (value : ClampLimit)
deriving DecidableEq, Repr

/-- The member `kernel_` (a `cl::Kernel`): the wrapped handle (`none` is
`nullptr`) and the `setArg` bindings made on this kernel object. -/
structure Kernel where
  handle : Option Nat
  args : List (Nat × KernelArg)
deriving DecidableEq, Repr

/-- The accessor `kernel_.get()`. -/
def Kernel.get (k : Kernel) : Option Nat := k.handle

/-- The call `kernel_.setArg(idx, value)`. -/
def Kernel.setArg (k : Kernel) (idx : Nat) (value : KernelArg) : Kernel :=
  { k with args := k.args ++ [(idx, value)] }

/-- The arguments of one call of `TuningOrRun2DKernel`. -/
structure DispatchRequest where
  kernel : Kernel
  tuning_key : String
  gws : List Nat
  lws : List Nat
deriving DecidableEq

/-- One effect of an invocation, in the order the code performs them. -/
inductive Event where
  | ResizeImage (opencl_image : Nat) (shape : List Int) (image_shape : List Nat)
  | BuildKernel (program_name kernel_name : String) (built_options : Finset String)
  | setArg (idx : Nat) (value : KernelArg)
  | LogFatal (message : String)
  | TuningOrRun2DKernel (request : DispatchRequest)
deriving DecidableEq

/-- The functions of other translation units that the two functors call. -/
structure Collaborators where
  /-- Yields `output_shape` and `paddings` from input shape, filter shape,
  dilations, strides and the padding policy. -/
  CalcNHWCPaddingAndOutputSize :
    List Int → List Int → List Int → List Int → Padding → List Int × List Int
  /-- Yields `output_shape` from input shape, filter shape, paddings,
  dilations, strides and the rounding mode. -/
  CalcOutputSize :
    List Int → List Int → List Int → List Int → List Int → RoundType → List Int
  CalImage2DShape : List Int → BufferType → List Nat
  MACE_OBFUSCATE_SYMBOL : String → String
  DtToUpstreamCLDt : DataType → String
  DtToUpstreamCLCMDDt : DataType → String
  /-- The call `OpenCLRuntime::Global()->BuildKernel`; `none` is a null kernel. -/
  BuildKernel : String → String → Finset String → Option Nat

/-- What an invocation of a functor `F` leaves behind: the functor (with its
member `kernel_`), the output tensor, the trace of effects, and whether the
process was aborted by `LOG(FATAL)`. -/
structure Outcome (F : Type) where
  functor : F
  output_tensor : Tensor
  trace : List Event
  aborted : Bool

/-- The request handed to the dispatcher in a trace, if there is one. -/
def dispatched : List Event → Option DispatchRequest
  | [] => none
  | Event.TuningOrRun2DKernel request :: _ => some request
  | _ :: rest => dispatched rest

/-- The options of the `BuildKernel` call in a trace, if there is one. -/
def built : List Event → Option (String × String × Finset String)
  | [] => none
  | Event.BuildKernel p n o :: _ => some (p, n, o)
  | _ :: rest => built rest

/-- The `setArg` calls of a trace, in order. -/
def bound : List Event → List (Nat × KernelArg)
  | [] => []
  | Event.setArg idx value :: rest => (idx, value) :: bound rest
  | _ :: rest => bound rest

/-- The state of the lazily built kernel of a functor instance. -/
inductive Phase where
  | Uninitialized
  | Built
deriving DecidableEq, Repr

/-- The phase of a functor is read off the null check `kernel_.get() == nullptr`. -/
def Kernel.phase (k : Kernel) : Phase :=
  if k.get = none then Phase.Uninitialized else Phase.Built

/-- The statement `kernel_.setArg(idx++, value)`: bind at the running index,
record the call, and advance the index. -/
def setArgNext (s : Kernel × Nat × List Event) (value : KernelArg) : Kernel × Nat × List Event :=
  (s.1.setArg s.2.1 value, s.2.1 + 1, s.2.2 ++ [Event.setArg s.2.1 value])

/-- The fixed preferred local work size `lws = {128, 8, 1}`. -/
def lws : List Nat := [128, 8, 1]

/-! ## The forward functor -/

/-- The members of `WinogradTransformFunctor<DeviceType::OPENCL, T>`: the
configuration, the element type `T`, and the lazily built `kernel_`. -/
structure WinogradTransformFunctor where
  strides_ : List Int
  padding_type_ : Padding
  paddings_ : List Int
  dilations_ : List Int
  T : DataType
  kernel_ : Kernel

namespace WinogradTransformFunctor

/-- Lines 18-29: `output_shape` and `paddings`, from the padding policy when
`paddings_` is empty and from the explicit paddings otherwise. -/
def shape_and_paddings (rt : Collaborators) (self : WinogradTransformFunctor)
    (input_tensor : Tensor) : List Int × List Int :=
  let filter_shape : List Int := [3, 3, input_tensor.dim 3, 1]
  if self.paddings_.isEmpty then
    rt.CalcNHWCPaddingAndOutputSize input_tensor.shape filter_shape self.dilations_
      self.strides_ self.padding_type_
  else
    (rt.CalcOutputSize input_tensor.shape filter_shape self.paddings_ self.dilations_
      self.strides_ RoundType.FLOOR, self.paddings_)

/-- The vector `output_shape` after lines 18-29; `output_shape[i]` is `getD i 0`
(the vector is created with four zero entries). -/
def output_shape (rt : Collaborators) (self : WinogradTransformFunctor)
    (input_tensor : Tensor) : List Int :=
  (self.shape_and_paddings rt input_tensor).1

/-- The vector `paddings` after lines 18-29. -/
def paddings (rt : Collaborators) (self : WinogradTransformFunctor)
    (input_tensor : Tensor) : List Int :=
  (self.shape_and_paddings rt input_tensor).2

/-- Line 31: `round_h = (output_shape[1] + 1) / 2`. -/
def round_h (rt : Collaborators) (self : WinogradTransformFunctor)
    (input_tensor : Tensor) : Int :=
  (wrap_int64 ((self.output_shape rt input_tensor).getD 1 0 + 1)).tdiv 2

/-- Line 32: `round_w = (output_shape[2] + 1) / 2`. -/
def round_w (rt : Collaborators) (self : WinogradTransformFunctor)
    (input_tensor : Tensor) : Int :=
  (wrap_int64 ((self.output_shape rt input_tensor).getD 2 0 + 1)).tdiv 2

/-- Line 33: `out_width = input_tensor->dim(0) * round_h * round_w`. -/
def out_width (rt : Collaborators) (self : WinogradTransformFunctor)
    (input_tensor : Tensor) : Int :=
  wrap_int64 (wrap_int64 (input_tensor.dim 0 * self.round_h rt input_tensor)
    * self.round_w rt input_tensor)

/-- Lines 41-45: the name of the kernel and the set `built_options`. -/
def built_options (rt : Collaborators) (self : WinogradTransformFunctor) : Finset String :=
  let obfuscated_kernel_name := rt.MACE_OBFUSCATE_SYMBOL "winograd_transform_2x2"
  insert ("-DCMD_DATA_TYPE=" ++ rt.DtToUpstreamCLCMDDt self.T)
    (insert ("-DDATA_TYPE=" ++ rt.DtToUpstreamCLDt self.T)
      (insert ("-Dwinograd_transform_2x2=" ++ obfuscated_kernel_name) ∅))

/-- Lines 36-60, the body of `if (kernel_.get() == nullptr)`: resize the
output tensor, build the kernel, bind its nine arguments. -/
def build_and_bind (rt : Collaborators) (self : WinogradTransformFunctor)
    (input_tensor output_tensor : Tensor) : Kernel × Tensor × List Event :=
  let output_shape : List Int := [16, input_tensor.dim 3, self.out_width rt input_tensor, 1]
  let image_shape := rt.CalImage2DShape output_shape BufferType.IN_OUT_HEIGHT
  let output_tensor := output_tensor.ResizeImage output_shape image_shape
  let obfuscated_kernel_name := rt.MACE_OBFUSCATE_SYMBOL "winograd_transform_2x2"
  let built_options := self.built_options rt
  let kernel_ : Kernel :=
    ⟨rt.BuildKernel "winograd_transform" obfuscated_kernel_name built_options, []⟩
  let s : Kernel × Nat × List Event :=
    (kernel_, 0,
      [Event.ResizeImage output_tensor.opencl_image output_shape image_shape,
       Event.BuildKernel "winograd_transform" obfuscated_kernel_name built_options])
  let s := setArgNext s (KernelArg.image input_tensor.opencl_image)
  let s := setArgNext s (KernelArg.image output_tensor.opencl_image)
  let s := setArgNext s (KernelArg.uint32 (static_cast_uint32 (input_tensor.dim 1)))
  let s := setArgNext s (KernelArg.uint32 (static_cast_uint32 (input_tensor.dim 2)))
  let s := setArgNext s (KernelArg.uint32 (static_cast_uint32 (input_tensor.dim 3)))
  let s := setArgNext s (KernelArg.uint32 (static_cast_uint32
    (wrap_int64 (self.round_h rt input_tensor * self.round_w rt input_tensor))))
  let s := setArgNext s (KernelArg.uint32 (static_cast_uint32 (self.round_w rt input_tensor)))
  let s := setArgNext s (KernelArg.uint32 (static_cast_uint32
    (((self.paddings rt input_tensor).getD 0 0).tdiv 2)))
  let s := setArgNext s (KernelArg.uint32 (static_cast_uint32
    (((self.paddings rt input_tensor).getD 1 0).tdiv 2)))
  (s.1, output_tensor, s.2.2)

/-- Lines 63-64: the global work size `gws`. -/
def gws (rt : Collaborators) (self : WinogradTransformFunctor) (input_tensor : Tensor) :
    List Nat :=
  [static_cast_uint32 (self.out_width rt input_tensor),
   static_cast_uint32 (RoundUpDiv4 (input_tensor.dim 3))]

/-- Lines 66-71: the string written to the stream `ss`. -/
def tuning_key (input_tensor : Tensor) : String :=
  "winograd_transform_kernel_"
    ++ toString (input_tensor.dim 0) ++ "_"
    ++ toString (input_tensor.dim 1) ++ "_"
    ++ toString (input_tensor.dim 2) ++ "_"
    ++ toString (input_tensor.dim 3)

/-- Lines 63-72: the arguments of the call of `TuningOrRun2DKernel`. -/
def request (rt : Collaborators) (self : WinogradTransformFunctor) (kernel_ : Kernel)
    (input_tensor : Tensor) : DispatchRequest :=
  { kernel := kernel_, tuning_key := tuning_key input_tensor,
    gws := self.gws rt input_tensor, lws := lws }

/-- Line 72: the call of `TuningOrRun2DKernel` on the kernel `kernel_`. -/
def dispatch (rt : Collaborators) (self : WinogradTransformFunctor) (kernel_ : Kernel)
    (input_tensor : Tensor) : Event :=
  Event.TuningOrRun2DKernel (self.request rt kernel_ input_tensor)

/-- The function `WinogradTransformFunctor<DeviceType::OPENCL, T>::operator()`
(lines 15-73). -/
def operator_call (rt : Collaborators) (self : WinogradTransformFunctor)
    (input_tensor output_tensor : Tensor) : Outcome WinogradTransformFunctor :=
  if self.kernel_.get = none then
    let b := self.build_and_bind rt input_tensor output_tensor
    { functor := { self with kernel_ := b.1 },
      output_tensor := b.2.1,
      trace := b.2.2 ++ [self.dispatch rt b.1 input_tensor],
      aborted := false }
  else
    { functor := self,
      output_tensor := output_tensor,
      trace := [self.dispatch rt self.kernel_ input_tensor],
      aborted := false }

/-- Successive invocations on one functor instance with one output tensor:
the functor, the output tensor and the concatenated trace after the last. -/
def run (rt : Collaborators) :
    WinogradTransformFunctor → Tensor → List Tensor →
      WinogradTransformFunctor × Tensor × List Event
  | self, output_tensor, [] => (self, output_tensor, [])
  | self, output_tensor, input_tensor :: rest =>
    let r := self.operator_call rt input_tensor output_tensor
    let t := run rt r.functor r.output_tensor rest
    (t.1, t.2.1, r.trace ++ t.2.2)

end WinogradTransformFunctor

/-! ## The inverse functor -/

/-- The members of `WinogradInverseTransformFunctor<DeviceType::OPENCL, T>`. -/
structure WinogradInverseTransformFunctor where
  batch_ : Int
  height_ : Int
  width_ : Int
  activation_ : ActivationType
  relux_max_limit_ : ClampLimit
  T : DataType
  kernel_ : Kernel

namespace WinogradInverseTransformFunctor

/-- Line 80: `output_shape = {batch_, height_, width_, input_tensor->dim(1)}`. -/
def output_shape (self : WinogradInverseTransformFunctor) (input_tensor : Tensor) : List Int :=
  [self.batch_, self.height_, self.width_, input_tensor.dim 1]

/-- Lines 92-112: the `switch (activation_)`; `Except.error` is the
`LOG(FATAL)` of the default label, with its message. -/
def activation_switch (activation_ : ActivationType) (built_options : Finset String) :
    Except String (Finset String) :=
  match activation_ with
  | ActivationType.NOOP => Except.ok built_options
  | ActivationType.RELU => Except.ok (insert "-DUSE_RELU" built_options)
  | ActivationType.RELUX => Except.ok (insert "-DUSE_RELUX" built_options)
  | ActivationType.PRELU => Except.ok (insert "-DUSE_PRELU" built_options)
  | ActivationType.TANH => Except.ok (insert "-DUSE_TANH" built_options)
  | ActivationType.SIGMOID => Except.ok (insert "-DUSE_SIGMOID" built_options)
  | ActivationType.UNKNOWN raw => Except.error ("Unknown activation type: " ++ toString raw)

/-- Lines 87-91: `built_options` before the `switch`. -/
def base_options (rt : Collaborators) (self : WinogradInverseTransformFunctor)
    (bias : Option Tensor) : Finset String :=
  let obfuscated_kernel_name := rt.MACE_OBFUSCATE_SYMBOL "winograd_inverse_transform_2x2"
  insert (if bias.isSome then "-DBIAS" else "")
    (insert ("-DCMD_DATA_TYPE=" ++ rt.DtToUpstreamCLCMDDt self.T)
      (insert ("-DDATA_TYPE=" ++ rt.DtToUpstreamCLDt self.T)
        (insert ("-Dwinograd_inverse_transform_2x2=" ++ obfuscated_kernel_name) ∅)))

/-- Line 119: `const uint32_t round_h = (height_ + 1) / 2`. -/
def round_h (self : WinogradInverseTransformFunctor) : Nat :=
  static_cast_uint32 ((wrap_int32 (self.height_ + 1)).tdiv 2)

/-- Line 120: `const uint32_t round_w = (width_ + 1) / 2`. -/
def round_w (self : WinogradInverseTransformFunctor) : Nat :=
  static_cast_uint32 ((wrap_int32 (self.width_ + 1)).tdiv 2)

/-- Lines 114-131: build the kernel with `built_options` and bind its arguments. -/
def build_and_bind (rt : Collaborators) (self : WinogradInverseTransformFunctor)
    (built_options : Finset String) (input_tensor : Tensor) (bias : Option Tensor)
    (output_tensor : Tensor) : Kernel × List Event :=
  let obfuscated_kernel_name := rt.MACE_OBFUSCATE_SYMBOL "winograd_inverse_transform_2x2"
  let kernel_ : Kernel :=
    ⟨rt.BuildKernel "winograd_transform" obfuscated_kernel_name built_options, []⟩
  let s : Kernel × Nat × List Event :=
    (kernel_, 0, [Event.BuildKernel "winograd_transform" obfuscated_kernel_name built_options])
  let s := setArgNext s (KernelArg.image input_tensor.opencl_image)
  let s :=
    match bias with
    | some b => setArgNext s (KernelArg.image b.opencl_image)
    | none => s
  let s := setArgNext s (KernelArg.image output_tensor.opencl_image)
  let s := setArgNext s (KernelArg.uint32
    (static_cast_uint32 ((self.output_shape input_tensor).getD 1 0)))
  let s := setArgNext s (KernelArg.uint32
    (static_cast_uint32 ((self.output_shape input_tensor).getD 2 0)))
  let s := setArgNext s (KernelArg.uint32 (uint32_mul self.round_h self.round_w))
  let s := setArgNext s (KernelArg.uint32 self.round_w)
  let s := setArgNext s (KernelArg.limit self.relux_max_limit_)
  (s.1, s.2.2)

/-- Lines 134-135: the global work size `gws`. -/
def gws (input_tensor : Tensor) : List Nat :=
  [static_cast_uint32 (input_tensor.dim 2),
   static_cast_uint32 (RoundUpDiv4 (input_tensor.dim 1))]

/-- Lines 138-143: the string written to the stream `ss`. -/
def tuning_key (input_tensor : Tensor) : String :=
  "winograd_inverse_transform_kernel_"
    ++ toString (input_tensor.dim 0) ++ "_"
    ++ toString (input_tensor.dim 1) ++ "_"
    ++ toString (input_tensor.dim 2) ++ "_"
    ++ toString (input_tensor.dim 3)

/-- Lines 134-144: the arguments of the call of `TuningOrRun2DKernel`. -/
def request (kernel_ : Kernel) (input_tensor : Tensor) : DispatchRequest :=
  { kernel := kernel_, tuning_key := tuning_key input_tensor,
    gws := gws input_tensor, lws := lws }

/-- Line 144: the call of `TuningOrRun2DKernel` on the kernel `kernel_`. -/
def dispatch (kernel_ : Kernel) (input_tensor : Tensor) : Event :=
  Event.TuningOrRun2DKernel (request kernel_ input_tensor)

/-- The function
`WinogradInverseTransformFunctor<DeviceType::OPENCL, T>::operator()`
(lines 76-145); `bias` is `none` for a null pointer. -/
def operator_call (rt : Collaborators) (self : WinogradInverseTransformFunctor)
    (input_tensor : Tensor) (bias : Option Tensor) (output_tensor : Tensor) :
    Outcome WinogradInverseTransformFunctor :=
  let output_shape := self.output_shape input_tensor
  let image_shape := rt.CalImage2DShape output_shape BufferType.IN_OUT_CHANNEL
  let output_tensor := output_tensor.ResizeImage output_shape image_shape
  let resized := Event.ResizeImage output_tensor.opencl_image output_shape image_shape
  if self.kernel_.get = none then
    match activation_switch self.activation_ (self.base_options rt bias) with
    | Except.error message =>
      { functor := self,
        output_tensor := output_tensor,
        trace := [resized, Event.LogFatal message],
        aborted := true }
    | Except.ok built_options =>
      let b := self.build_and_bind rt built_options input_tensor bias output_tensor
      { functor := { self with kernel_ := b.1 },
        output_tensor := output_tensor,
        trace := resized :: b.2 ++ [dispatch b.1 input_tensor],
        aborted := false }
  else
    { functor := self,
      output_tensor := output_tensor,
      trace := [resized, dispatch self.kernel_ input_tensor],
      aborted := false }

/-- Successive invocations on one functor instance with one output tensor, each
with its input tensor and its bias pointer; nothing runs after an abort. -/
def run (rt : Collaborators) :
    WinogradInverseTransformFunctor → Tensor → List (Tensor × Option Tensor) →
      WinogradInverseTransformFunctor × Tensor × List Event
  | self, output_tensor, [] => (self, output_tensor, [])
  | self, output_tensor, (input_tensor, bias) :: rest =>
    let r := self.operator_call rt input_tensor bias output_tensor
    if r.aborted then (r.functor, r.output_tensor, r.trace)
    else
      let t := run rt r.functor r.output_tensor rest
      (t.1, t.2.1, r.trace ++ t.2.2)

end WinogradInverseTransformFunctor

/-! ## The shape calculator of the spec, and a concrete set of collaborators -/

/-- Modelled from the spec: the shape/padding calculator
`CalcNHWCPaddingAndOutputSize` (defined outside this translation unit), "the
effective output spatial shape and padding for a notional 3x3,
stride/dilation-parameterized convolution over the input, using a padding
policy (e.g., SAME/VALID) combined with stride/dilation".  The filter covers
`(k - 1) * dilation + 1` input positions; VALID places it only where it lies
inside the input, SAME yields one output position per stride step of the
input; the padding is what the last filter position needs beyond the input. -/
def CalcNHWCPaddingAndOutputSize (input_shape filter_shape dilations strides : List Int)
    (padding : Padding) : List Int × List Int :=
  let k_extent_height := (filter_shape.getD 0 0 - 1) * dilations.getD 0 0 + 1
  let k_extent_width := (filter_shape.getD 1 0 - 1) * dilations.getD 1 0 + 1
  let output_height :=
    match padding with
    | Padding.VALID => (input_shape.getD 1 0 - k_extent_height).tdiv (strides.getD 0 0) + 1
    | Padding.SAME => (input_shape.getD 1 0 - 1).tdiv (strides.getD 0 0) + 1
  let output_width :=
    match padding with
    | Padding.VALID => (input_shape.getD 2 0 - k_extent_width).tdiv (strides.getD 1 0) + 1
    | Padding.SAME => (input_shape.getD 2 0 - 1).tdiv (strides.getD 1 0) + 1
  ([input_shape.getD 0 0, output_height, output_width, filter_shape.getD 2 0],
   [max 0 ((output_height - 1) * strides.getD 0 0 + k_extent_height - input_shape.getD 1 0),
    max 0 ((output_width - 1) * strides.getD 1 0 + k_extent_width - input_shape.getD 2 0)])

/-- Modelled from the spec: the calculator `CalcOutputSize` for explicit
paddings (defined outside this translation unit): the filter is placed on the
input enlarged by the paddings, the quotient rounded as the mode says. -/
def CalcOutputSize (input_shape filter_shape paddings dilations strides : List Int)
    (round_type : RoundType) : List Int :=
  let k_extent_height := (filter_shape.getD 0 0 - 1) * dilations.getD 0 0 + 1
  let k_extent_width := (filter_shape.getD 1 0 - 1) * dilations.getD 1 0 + 1
  let span_height := input_shape.getD 1 0 + paddings.getD 0 0 - k_extent_height
  let span_width := input_shape.getD 2 0 + paddings.getD 1 0 - k_extent_width
  match round_type with
  | RoundType.FLOOR =>
    [input_shape.getD 0 0, span_height / strides.getD 0 0 + 1,
     span_width / strides.getD 1 0 + 1, filter_shape.getD 2 0]
  | RoundType.CEIL =>
    [input_shape.getD 0 0, -((-span_height) / strides.getD 0 0) + 1,
     -((-span_width) / strides.getD 1 0) + 1, filter_shape.getD 2 0]

/-- The collaborators `rt` with the shape calculators of the spec in place. -/
def with_spec_calculator (rt : Collaborators) : Collaborators :=
  { rt with
    CalcNHWCPaddingAndOutputSize := CalcNHWCPaddingAndOutputSize,
    CalcOutputSize := CalcOutputSize }

/-- A concrete set of collaborators on which the functors can be evaluated:
the shape calculators of the spec, no symbol obfuscation, the OpenCL names of
the element types, an image twice as wide as the third dimension, and a
program builder that always returns the kernel handle 1. -/
def sample_collaborators : Collaborators :=
  { CalcNHWCPaddingAndOutputSize := CalcNHWCPaddingAndOutputSize,
    CalcOutputSize := CalcOutputSize,
    CalImage2DShape := fun shape _ => [(2 * shape.getD 2 0).toNat, (shape.getD 0 0).toNat],
    MACE_OBFUSCATE_SYMBOL := fun symbol => symbol,
    DtToUpstreamCLDt := fun dt =>
      match dt with
      | DataType.DT_FLOAT => "float"
      | DataType.DT_HALF => "half",
    DtToUpstreamCLCMDDt := fun dt =>
      match dt with
      | DataType.DT_FLOAT => "f"
      | DataType.DT_HALF => "h",
    BuildKernel := fun _ _ _ => some 1 }

/-- A forward functor that has not been invoked yet: stride 1, dilation 1, no
explicit paddings, the given padding policy. -/
def sample_forward (padding_type_ : Padding) : WinogradTransformFunctor :=
  { strides_ := [1, 1], padding_type_ := padding_type_, paddings_ := [],
    dilations_ := [1, 1], T := DataType.DT_FLOAT, kernel_ := ⟨none, []⟩ }

/-- An inverse functor that has not been invoked yet, for the target shape
batch 1, height 4, width 4. -/
def sample_inverse (activation_ : ActivationType) : WinogradInverseTransformFunctor :=
  { batch_ := 1, height_ := 4, width_ := 4, activation_ := activation_,
    relux_max_limit_ := ⟨0⟩, T := DataType.DT_FLOAT, kernel_ := ⟨none, []⟩ }

/-- An inverse functor that has not been invoked yet, for the target shape
batch 1 and the given height and width, with the NOOP activation. -/
def sample_inverse_sized (height_ width_ : Int) : WinogradInverseTransformFunctor :=
  { batch_ := 1, height_ := height_, width_ := width_, activation_ := ActivationType.NOOP,
    relux_max_limit_ := ⟨0⟩, T := DataType.DT_FLOAT, kernel_ := ⟨none, []⟩ }

/-- A tensor of the given shape owning the image `opencl_image`. -/
def sample_tensor (opencl_image : Nat) (shape : List Int) : Tensor :=
  { opencl_image := opencl_image, shape := shape, image_shape := [] }

/-! ## Notions used in the statements -/

/-- The activation kinds with a case label in the `switch`. -/
def known_activations : List ActivationType :=
  [ActivationType.NOOP, ActivationType.RELU, ActivationType.RELUX, ActivationType.PRELU,
   ActivationType.TANH, ActivationType.SIGMOID]

/-- Number of `BuildKernel` calls in a trace. -/
def build_count : List Event → Nat
  | [] => 0
  | Event.BuildKernel _ _ _ :: rest => build_count rest + 1
  | _ :: rest => build_count rest

/-- The strings that the inverse functor inserts besides the three defines
with a variable tail: the bias entries and the five activation defines. -/
def fixed_options : List String :=
  ["-DBIAS", "", "-DUSE_RELU", "-DUSE_RELUX", "-DUSE_PRELU", "-DUSE_TANH", "-DUSE_SIGMOID"]

/-! ## Arithmetic of the conversions and quotients -/

theorem static_cast_uint32_of_range (x : Int) (h0 : 0 ≤ x) (h1 : x < 4294967296) :
    (static_cast_uint32 x : Int) = x := by
  unfold static_cast_uint32
  rw [Int.toNat_of_nonneg (Int.emod_nonneg _ (by norm_num))]
  exact Int.emod_eq_of_lt h0 h1

theorem tdiv_two_of_nonneg (x : Int) (h : 0 ≤ x) : (x + 1).tdiv 2 = (x + 1) / 2 :=
  Int.tdiv_eq_ediv (by omega) (by norm_num)

theorem wrap_int32_of_range (x : Int) (h0 : -2147483648 ≤ x) (h1 : x < 2147483648) :
    wrap_int32 x = x := by
  unfold wrap_int32
  omega

theorem wrap_int64_of_range (x : Int) (h0 : -9223372036854775808 ≤ x)
    (h1 : x < 9223372036854775808) : wrap_int64 x = x := by
  unfold wrap_int64
  omega

theorem wrap_int64_congr (x y : Int)
    (h : x % 18446744073709551616 = y % 18446744073709551616) :
    wrap_int64 x = wrap_int64 y := by
  unfold wrap_int64
  omega

theorem wrap_int64_emod (x : Int) :
    wrap_int64 x % 18446744073709551616 = x % 18446744073709551616 := by
  unfold wrap_int64
  omega

theorem wrap_int64_mul_left (a b : Int) :
    wrap_int64 (wrap_int64 a * b) = wrap_int64 (a * b) := by
  apply wrap_int64_congr
  rw [Int.mul_emod, wrap_int64_emod, ← Int.mul_emod]

theorem static_cast_uint32_wrap_int64 (x : Int) :
    static_cast_uint32 (wrap_int64 x) = static_cast_uint32 x := by
  unfold static_cast_uint32 wrap_int64
  congr 1
  omega

theorem index_half_up (x : Int) (h0 : 0 ≤ x) (h1 : x < 9223372036854775807) :
    (wrap_int64 (x + 1)).tdiv 2 = (x + 1) / 2 := by
  rw [wrap_int64_of_range _ (by omega) (by omega)]
  exact tdiv_two_of_nonneg x h0

theorem forward_out_width_eq (rt : Collaborators) (self : WinogradTransformFunctor)
    (input_tensor : Tensor) :
    self.out_width rt input_tensor
      = wrap_int64 (input_tensor.dim 0 * self.round_h rt input_tensor
          * self.round_w rt input_tensor) := by
  unfold WinogradTransformFunctor.out_width
  exact wrap_int64_mul_left _ _

theorem half_up_is_least (x : Int) :
    x ≤ 2 * ((x + 1) / 2) ∧ ∀ r : Int, x ≤ 2 * r → (x + 1) / 2 ≤ r := by
  constructor
  · omega
  · intro r hr
    omega

theorem RoundUpDiv4_is_least (x : Int) :
    x ≤ 4 * RoundUpDiv4 x ∧ ∀ r : Int, x ≤ 4 * r → RoundUpDiv4 x ≤ r := by
  unfold RoundUpDiv4
  constructor
  · omega
  · intro r hr
    omega

theorem inverse_round_is_ceiling (x : Int) (h0 : 0 ≤ x) (h1 : x < 2147483647) :
    (static_cast_uint32 ((wrap_int32 (x + 1)).tdiv 2) : Int) = (x + 1) / 2
    ∧ x ≤ 2 * (static_cast_uint32 ((wrap_int32 (x + 1)).tdiv 2) : Int)
    ∧ ∀ r : Int, x ≤ 2 * r → (static_cast_uint32 ((wrap_int32 (x + 1)).tdiv 2) : Int) ≤ r := by
  have e : (static_cast_uint32 ((wrap_int32 (x + 1)).tdiv 2) : Int) = (x + 1) / 2 := by
    rw [wrap_int32_of_range _ (by omega) (by omega), tdiv_two_of_nonneg _ h0]
    exact static_cast_uint32_of_range _ (by omega) (by omega)
  rw [e]
  exact ⟨rfl, (half_up_is_least x).1, (half_up_is_least x).2⟩

theorem sample_builder_never_null :
    ∀ p n o, sample_collaborators.BuildKernel p n o ≠ none := by
  intro p n o
  simp [sample_collaborators]

/-! ## Tile geometry -/

/-- C1 as stated fails on the code.  Forward functor: for the input shape
`[4294967296, 131072, 131072, 4]` with the SAME policy and stride 1 the output
height and width are 131072, `round_h = round_w = 65536`, and the `index_t`
product `batch * round_h * round_w` is `2^64`, which wraps around: line 33
leaves `out_width = 0`.  Inverse functor: for the configured height
`2147483647` the `int` sum `height_ + 1` of line 119 wraps around, and
`round_h` is `3221225472`, not the ceiling `1073741824`. -/
theorem tile_geometry_wraps_counterexample :
    (sample_forward Padding.SAME).output_shape sample_collaborators
        (sample_tensor 1 [4294967296, 131072, 131072, 4])
      = [4294967296, 131072, 131072, 4]
    ∧ (sample_forward Padding.SAME).round_h sample_collaborators
        (sample_tensor 1 [4294967296, 131072, 131072, 4]) = 65536
    ∧ (sample_forward Padding.SAME).round_w sample_collaborators
        (sample_tensor 1 [4294967296, 131072, 131072, 4]) = 65536
    ∧ (sample_forward Padding.SAME).out_width sample_collaborators
        (sample_tensor 1 [4294967296, 131072, 131072, 4]) = 0
    ∧ (4294967296 : Int) * 65536 * 65536 = 18446744073709551616
    ∧ ((sample_forward Padding.SAME).operator_call sample_collaborators
        (sample_tensor 1 [4294967296, 131072, 131072, 4])
        (sample_tensor 2 [])).output_tensor.shape = [16, 4, 0, 1]
    ∧ (sample_inverse_sized 2147483647 4).round_h = 3221225472
    ∧ ((2147483647 : Int) + 1) / 2 = 1073741824 := by
  refine ⟨by decide, by decide, by decide, by decide, by decide, by decide, by decide,
    by decide⟩

/-- C1, amended: for every output height `H` and width `W` returned by the
shape calculator with `0 ≤ H, W < 2^63 - 1` and every batch, the forward
functor computes `round_h = (H + 1) / 2` and `round_w = (W + 1) / 2`, these are
the least integers `r` with `2 * r ≥ H` (resp. `W`), for even and odd values
alike, and `out_width` is `batch * round_h * round_w` brought into the range
of `index_t`, hence equal to that product whenever the product lies in
`[-2^63, 2^63)`.  The inverse functor computes `(height_ + 1) / 2` and
`(width_ + 1) / 2` in `int` and stores them as `uint32_t`; for configured values
with `0 ≤ height_, width_ < 2^31 - 1` they are these least integers as well. -/
theorem tile_geometry_is_ceiling :
    (∀ (rt : Collaborators) (fwd : WinogradTransformFunctor) (input_tensor : Tensor),
      0 ≤ (fwd.output_shape rt input_tensor).getD 1 0 →
      (fwd.output_shape rt input_tensor).getD 1 0 < 9223372036854775807 →
      0 ≤ (fwd.output_shape rt input_tensor).getD 2 0 →
      (fwd.output_shape rt input_tensor).getD 2 0 < 9223372036854775807 →
        (fwd.round_h rt input_tensor = ((fwd.output_shape rt input_tensor).getD 1 0 + 1) / 2
          ∧ (fwd.output_shape rt input_tensor).getD 1 0 ≤ 2 * fwd.round_h rt input_tensor
          ∧ ∀ r : Int, (fwd.output_shape rt input_tensor).getD 1 0 ≤ 2 * r →
              fwd.round_h rt input_tensor ≤ r)
        ∧ (fwd.round_w rt input_tensor = ((fwd.output_shape rt input_tensor).getD 2 0 + 1) / 2
          ∧ (fwd.output_shape rt input_tensor).getD 2 0 ≤ 2 * fwd.round_w rt input_tensor
          ∧ ∀ r : Int, (fwd.output_shape rt input_tensor).getD 2 0 ≤ 2 * r →
              fwd.round_w rt input_tensor ≤ r))
    ∧ (∀ (rt : Collaborators) (fwd : WinogradTransformFunctor) (input_tensor : Tensor),
        fwd.out_width rt input_tensor
          = wrap_int64 (input_tensor.dim 0 * fwd.round_h rt input_tensor
              * fwd.round_w rt input_tensor)
        ∧ (-9223372036854775808
              ≤ input_tensor.dim 0 * fwd.round_h rt input_tensor * fwd.round_w rt input_tensor →
           input_tensor.dim 0 * fwd.round_h rt input_tensor * fwd.round_w rt input_tensor
              < 9223372036854775808 →
            fwd.out_width rt input_tensor
              = input_tensor.dim 0 * fwd.round_h rt input_tensor
                  * fwd.round_w rt input_tensor))
    ∧ (∀ inv : WinogradInverseTransformFunctor,
      0 ≤ inv.height_ → inv.height_ < 2147483647 →
      0 ≤ inv.width_ → inv.width_ < 2147483647 →
        ((inv.round_h : Int) = (inv.height_ + 1) / 2
          ∧ inv.height_ ≤ 2 * (inv.round_h : Int)
          ∧ ∀ r : Int, inv.height_ ≤ 2 * r → (inv.round_h : Int) ≤ r)
        ∧ ((inv.round_w : Int) = (inv.width_ + 1) / 2
          ∧ inv.width_ ≤ 2 * (inv.round_w : Int)
          ∧ ∀ r : Int, inv.width_ ≤ 2 * r → (inv.round_w : Int) ≤ r))
    ∧ (∀ inv : WinogradInverseTransformFunctor,
        inv.round_h = static_cast_uint32 ((wrap_int32 (inv.height_ + 1)).tdiv 2)
        ∧ inv.round_w = static_cast_uint32 ((wrap_int32 (inv.width_ + 1)).tdiv 2)) := by
  refine ⟨?_, ?_, ?_, fun _ => ⟨rfl, rfl⟩⟩
  · intro rt fwd input_tensor hH hH' hW hW'
    have eh : fwd.round_h rt input_tensor
        = ((fwd.output_shape rt input_tensor).getD 1 0 + 1) / 2 :=
      index_half_up _ hH hH'
    have ew : fwd.round_w rt input_tensor
        = ((fwd.output_shape rt input_tensor).getD 2 0 + 1) / 2 :=
      index_half_up _ hW hW'
    refine ⟨⟨eh, ?_, ?_⟩, ⟨ew, ?_, ?_⟩⟩
    · rw [eh]; exact (half_up_is_least _).1
    · rw [eh]; exact (half_up_is_least _).2
    · rw [ew]; exact (half_up_is_least _).1
    · rw [ew]; exact (half_up_is_least _).2
  · intro rt fwd input_tensor
    refine ⟨forward_out_width_eq rt fwd input_tensor, ?_⟩
    intro lo hi
    rw [forward_out_width_eq, wrap_int64_of_range _ lo hi]
  · intro inv h0 h1 w0 w1
    exact ⟨inverse_round_is_ceiling _ h0 h1, inverse_round_is_ceiling _ w0 w1⟩

theorem tile_geometry_is_ceiling_witness :
    (0 ≤ ((sample_forward Padding.SAME).output_shape sample_collaborators
            (sample_tensor 0 [2, 5, 4, 4])).getD 1 0
      ∧ ((sample_forward Padding.SAME).output_shape sample_collaborators
            (sample_tensor 0 [2, 5, 4, 4])).getD 1 0 < 9223372036854775807
      ∧ 0 ≤ ((sample_forward Padding.SAME).output_shape sample_collaborators
            (sample_tensor 0 [2, 5, 4, 4])).getD 2 0
      ∧ ((sample_forward Padding.SAME).output_shape sample_collaborators
            (sample_tensor 0 [2, 5, 4, 4])).getD 2 0 < 9223372036854775807)
    ∧ (sample_forward Padding.SAME).round_h sample_collaborators (sample_tensor 0 [2, 5, 4, 4])
        = (5 + 1) / 2
    ∧ (sample_forward Padding.SAME).round_w sample_collaborators (sample_tensor 0 [2, 5, 4, 4])
        = (4 + 1) / 2
    ∧ (sample_forward Padding.SAME).out_width sample_collaborators (sample_tensor 0 [2, 5, 4, 4])
        = 12
    ∧ (0 ≤ (sample_inverse ActivationType.NOOP).height_
      ∧ (sample_inverse ActivationType.NOOP).height_ < 2147483647
      ∧ 0 ≤ (sample_inverse ActivationType.NOOP).width_
      ∧ (sample_inverse ActivationType.NOOP).width_ < 2147483647)
    ∧ ((sample_inverse ActivationType.NOOP).round_h : Int) = (4 + 1) / 2 := by
  have hf := tile_geometry_is_ceiling.1 sample_collaborators (sample_forward Padding.SAME)
    (sample_tensor 0 [2, 5, 4, 4]) (by decide) (by decide) (by decide) (by decide)
  have hw := (tile_geometry_is_ceiling.2.1 sample_collaborators (sample_forward Padding.SAME)
    (sample_tensor 0 [2, 5, 4, 4])).2 (by decide) (by decide)
  have hi := tile_geometry_is_ceiling.2.2.1 (sample_inverse ActivationType.NOOP)
    (by decide) (by decide) (by decide) (by decide)
  refine ⟨⟨by decide, by decide, by decide, by decide⟩, ?_, ?_, ?_,
    ⟨by decide, by decide, by decide, by decide⟩, ?_⟩
  · rw [hf.1.1]; decide
  · rw [hf.2.1]; decide
  · rw [hw]; decide
  · rw [hi.1.1]; decide

/-! ## Invocations of a functor whose kernel is already built -/

theorem forward_call_of_built (rt : Collaborators) (self : WinogradTransformFunctor)
    (input_tensor output_tensor : Tensor) (h : self.kernel_.get ≠ none) :
    self.operator_call rt input_tensor output_tensor
      = { functor := self, output_tensor := output_tensor,
          trace := [self.dispatch rt self.kernel_ input_tensor], aborted := false } := by
  unfold WinogradTransformFunctor.operator_call
  rw [if_neg h]

theorem forward_call_of_null (rt : Collaborators) (self : WinogradTransformFunctor)
    (input_tensor output_tensor : Tensor) (h : self.kernel_.get = none) :
    self.operator_call rt input_tensor output_tensor
      = { functor :=
            { self with kernel_ := (self.build_and_bind rt input_tensor output_tensor).1 },
          output_tensor := (self.build_and_bind rt input_tensor output_tensor).2.1,
          trace := (self.build_and_bind rt input_tensor output_tensor).2.2
            ++ [self.dispatch rt (self.build_and_bind rt input_tensor output_tensor).1
                  input_tensor],
          aborted := false } := by
  unfold WinogradTransformFunctor.operator_call
  rw [if_pos h]

theorem forward_build_and_bind_handle (rt : Collaborators) (self : WinogradTransformFunctor)
    (input_tensor output_tensor : Tensor) :
    (self.build_and_bind rt input_tensor output_tensor).1.get
      = rt.BuildKernel "winograd_transform" (rt.MACE_OBFUSCATE_SYMBOL "winograd_transform_2x2")
          (self.built_options rt) := rfl

/-! ## Shape of the output tensor -/

/-- C2, evaluated on the code: a forward functor whose kernel gets built by its
first invocation is invoked on an input of shape `[1,4,4,4]` and then, with the
same output tensor, on an input of shape `[1,4,4,8]`.  After the second
invocation the output tensor still has the shape the first one gave it,
`[16, 4, out_width, 1]` with the `out_width` of the first input, and not the
shape `[16, 8, out_width, 1]` of the second input: the second invocation
performs no `ResizeImage`. -/
theorem forward_second_call_keeps_first_shape (rt : Collaborators)
    (self : WinogradTransformFunctor) (output_tensor : Tensor)
    (h0 : self.kernel_.get = none)
    (hb : rt.BuildKernel "winograd_transform"
            (rt.MACE_OBFUSCATE_SYMBOL "winograd_transform_2x2") (self.built_options rt)
          ≠ none) :
    (WinogradTransformFunctor.run rt self output_tensor
        [sample_tensor 1 [1, 4, 4, 4], sample_tensor 1 [1, 4, 4, 8]]).2.1.shape
      = [16, 4, self.out_width rt (sample_tensor 1 [1, 4, 4, 4]), 1]
    ∧ (WinogradTransformFunctor.run rt self output_tensor
        [sample_tensor 1 [1, 4, 4, 4], sample_tensor 1 [1, 4, 4, 8]]).2.1.shape
      ≠ [16, (sample_tensor 1 [1, 4, 4, 8]).dim 3,
          self.out_width rt (sample_tensor 1 [1, 4, 4, 8]), 1] := by
  have hbuilt : ({ self with kernel_ := (self.build_and_bind rt (sample_tensor 1 [1, 4, 4, 4])
      output_tensor).1 } : WinogradTransformFunctor).kernel_.get ≠ none := by
    show (self.build_and_bind rt (sample_tensor 1 [1, 4, 4, 4]) output_tensor).1.get ≠ none
    rw [forward_build_and_bind_handle]
    exact hb
  have e : (WinogradTransformFunctor.run rt self output_tensor
        [sample_tensor 1 [1, 4, 4, 4], sample_tensor 1 [1, 4, 4, 8]]).2.1.shape
      = [16, 4, self.out_width rt (sample_tensor 1 [1, 4, 4, 4]), 1] := by
    simp only [WinogradTransformFunctor.run]
    rw [forward_call_of_null rt self _ _ h0]
    simp only []
    rw [forward_call_of_built rt _ _ _ hbuilt]
    rfl
  refine ⟨e, ?_⟩
  rw [e]
  intro hc
  simp [sample_tensor, Tensor.dim] at hc

theorem forward_second_call_keeps_first_shape_witness :
    (sample_forward Padding.SAME).kernel_.get = none
    ∧ sample_collaborators.BuildKernel "winograd_transform"
        (sample_collaborators.MACE_OBFUSCATE_SYMBOL "winograd_transform_2x2")
        ((sample_forward Padding.SAME).built_options sample_collaborators) ≠ none
    ∧ (WinogradTransformFunctor.run sample_collaborators (sample_forward Padding.SAME)
        (sample_tensor 2 []) [sample_tensor 1 [1, 4, 4, 4], sample_tensor 1 [1, 4, 4, 8]]).2.1.shape
      = [16, 4, 4, 1] := by
  refine ⟨rfl, sample_builder_never_null _ _ _, ?_⟩
  rw [(forward_second_call_keeps_first_shape sample_collaborators (sample_forward Padding.SAME)
    (sample_tensor 2 []) rfl (sample_builder_never_null _ _ _)).1]
  decide

/-- C3: after every invocation of the inverse functor, whatever the state of
`kernel_`, the output tensor has the logical shape
`[batch_, height_, width_, input_tensor->dim(1)]`; a functor configured for
batch 1, height 4, width 4 and given an input of shape `[16,4,4,1]` leaves the
output with the shape `[1,4,4,4]`. -/
theorem inverse_output_shape :
    (∀ (rt : Collaborators) (self : WinogradInverseTransformFunctor) (input_tensor : Tensor)
        (bias : Option Tensor) (output_tensor : Tensor),
      (self.operator_call rt input_tensor bias output_tensor).output_tensor.shape
        = [self.batch_, self.height_, self.width_, input_tensor.dim 1])
    ∧ (∀ (rt : Collaborators) (activation_ : ActivationType) (relux_max_limit_ : ClampLimit)
        (T : DataType) (kernel_ : Kernel) (opencl_image : Nat) (image_shape : List Nat)
        (bias : Option Tensor) (output_tensor : Tensor),
      (WinogradInverseTransformFunctor.operator_call rt
          { batch_ := 1, height_ := 4, width_ := 4, activation_ := activation_,
            relux_max_limit_ := relux_max_limit_, T := T, kernel_ := kernel_ }
          { opencl_image := opencl_image, shape := [16, 4, 4, 1], image_shape := image_shape }
          bias output_tensor).output_tensor.shape
        = [1, 4, 4, 4]) := by
  have general : ∀ (rt : Collaborators) (self : WinogradInverseTransformFunctor)
      (input_tensor : Tensor) (bias : Option Tensor) (output_tensor : Tensor),
      (self.operator_call rt input_tensor bias output_tensor).output_tensor.shape
        = [self.batch_, self.height_, self.width_, input_tensor.dim 1] := by
    intro rt self input_tensor bias output_tensor
    unfold WinogradInverseTransformFunctor.operator_call
    by_cases h : self.kernel_.get = none
    · simp only [h, if_true]
      cases WinogradInverseTransformFunctor.activation_switch self.activation_
        (self.base_options rt bias) <;> rfl
    · simp only [h, if_false]
      rfl
  refine ⟨general, ?_⟩
  intro rt activation_ relux_max_limit_ T kernel_ opencl_image image_shape bias output_tensor
  rw [general]
  rfl

/-! ## The fatal check of the inverse functor -/

theorem inverse_call_of_built (rt : Collaborators) (self : WinogradInverseTransformFunctor)
    (input_tensor : Tensor) (bias : Option Tensor) (output_tensor : Tensor)
    (h : self.kernel_.get ≠ none) :
    self.operator_call rt input_tensor bias output_tensor
      = { functor := self,
          output_tensor := output_tensor.ResizeImage (self.output_shape input_tensor)
            (rt.CalImage2DShape (self.output_shape input_tensor) BufferType.IN_OUT_CHANNEL),
          trace :=
            [Event.ResizeImage output_tensor.opencl_image (self.output_shape input_tensor)
               (rt.CalImage2DShape (self.output_shape input_tensor) BufferType.IN_OUT_CHANNEL),
             WinogradInverseTransformFunctor.dispatch self.kernel_ input_tensor],
          aborted := false } := by
  unfold WinogradInverseTransformFunctor.operator_call
  simp only [h, if_false]
  rfl

theorem inverse_call_of_unknown (rt : Collaborators) (self : WinogradInverseTransformFunctor)
    (input_tensor : Tensor) (bias : Option Tensor) (output_tensor : Tensor)
    (h : self.kernel_.get = none) (raw : Int)
    (ha : self.activation_ = ActivationType.UNKNOWN raw) :
    self.operator_call rt input_tensor bias output_tensor
      = { functor := self,
          output_tensor := output_tensor.ResizeImage (self.output_shape input_tensor)
            (rt.CalImage2DShape (self.output_shape input_tensor) BufferType.IN_OUT_CHANNEL),
          trace :=
            [Event.ResizeImage output_tensor.opencl_image (self.output_shape input_tensor)
               (rt.CalImage2DShape (self.output_shape input_tensor) BufferType.IN_OUT_CHANNEL),
             Event.LogFatal ("Unknown activation type: " ++ toString raw)],
          aborted := true } := by
  unfold WinogradInverseTransformFunctor.operator_call
  simp only [h, if_true, ha, WinogradInverseTransformFunctor.activation_switch]
  rfl

theorem inverse_call_of_ok (rt : Collaborators) (self : WinogradInverseTransformFunctor)
    (input_tensor : Tensor) (bias : Option Tensor) (output_tensor : Tensor)
    (h : self.kernel_.get = none) (built_options : Finset String)
    (ha : WinogradInverseTransformFunctor.activation_switch self.activation_
            (self.base_options rt bias) = Except.ok built_options) :
    self.operator_call rt input_tensor bias output_tensor
      = { functor :=
            { self with
              kernel_ := (self.build_and_bind rt built_options input_tensor bias
                (output_tensor.ResizeImage (self.output_shape input_tensor)
                  (rt.CalImage2DShape (self.output_shape input_tensor)
                    BufferType.IN_OUT_CHANNEL))).1 },
          output_tensor := output_tensor.ResizeImage (self.output_shape input_tensor)
            (rt.CalImage2DShape (self.output_shape input_tensor) BufferType.IN_OUT_CHANNEL),
          trace :=
            Event.ResizeImage output_tensor.opencl_image (self.output_shape input_tensor)
               (rt.CalImage2DShape (self.output_shape input_tensor) BufferType.IN_OUT_CHANNEL)
            :: (self.build_and_bind rt built_options input_tensor bias
                (output_tensor.ResizeImage (self.output_shape input_tensor)
                  (rt.CalImage2DShape (self.output_shape input_tensor)
                    BufferType.IN_OUT_CHANNEL))).2
            ++ [WinogradInverseTransformFunctor.dispatch
                 (self.build_and_bind rt built_options input_tensor bias
                   (output_tensor.ResizeImage (self.output_shape input_tensor)
                     (rt.CalImage2DShape (self.output_shape input_tensor)
                       BufferType.IN_OUT_CHANNEL))).1 input_tensor],
          aborted := false } := by
  unfold WinogradInverseTransformFunctor.operator_call
  simp only [h, if_true, ha]
  rfl

theorem activation_switch_ok_of_known (a : ActivationType) (h : a ∈ known_activations)
    (built_options : Finset String) :
    ∃ o, WinogradInverseTransformFunctor.activation_switch a built_options = Except.ok o := by
  cases a <;> simp [known_activations] at h <;>
    exact ⟨_, rfl⟩

theorem unknown_of_not_known (a : ActivationType) (h : a ∉ known_activations) :
    ∃ raw, a = ActivationType.UNKNOWN raw := by
  cases a <;> simp [known_activations] at h
  exact ⟨_, rfl⟩

theorem dispatched_append_of_none (xs ys : List Event) (h : dispatched xs = none) :
    dispatched (xs ++ ys) = dispatched ys := by
  induction xs with
  | nil => rfl
  | cons e rest ih =>
    cases e <;> simp [dispatched] at h ⊢ <;> exact ih h

theorem getLast_cons_append_singleton (a : Event) (xs : List Event) (e : Event) :
    (a :: (xs ++ [e])).getLast? = some e := by
  have split : a :: (xs ++ [e]) = (a :: xs) ++ [e] := rfl
  rw [split, List.getLast?_concat]

theorem inverse_build_and_bind_dispatched (rt : Collaborators)
    (self : WinogradInverseTransformFunctor) (built_options : Finset String)
    (input_tensor : Tensor) (bias : Option Tensor) (output_tensor : Tensor) :
    dispatched (self.build_and_bind rt built_options input_tensor bias output_tensor).2
      = none := by
  cases bias <;> rfl

theorem inverse_build_and_bind_no_fatal (rt : Collaborators)
    (self : WinogradInverseTransformFunctor) (built_options : Finset String)
    (input_tensor : Tensor) (bias : Option Tensor) (output_tensor : Tensor) (message : String) :
    Event.LogFatal message
      ∉ (self.build_and_bind rt built_options input_tensor bias output_tensor).2 := by
  cases bias <;>
    simp [WinogradInverseTransformFunctor.build_and_bind, setArgNext]

/-- C4: an invocation of an inverse functor whose kernel is not built yet is
aborted by `LOG(FATAL)` if and only if `activation_` is none of NOOP, RELU,
RELUX, PRELU, TANH, SIGMOID.  When it is aborted, the trace is the resize of
the output tensor followed by the fatal log and nothing else: no `BuildKernel`,
no `setArg`, no request to the dispatcher, and `kernel_` is left as it was.
For each of the six kinds the invocation is not aborted, logs no fatal error
and ends with a request to the dispatcher. -/
theorem inverse_fatal_iff_unknown_activation (rt : Collaborators)
    (self : WinogradInverseTransformFunctor) (input_tensor : Tensor) (bias : Option Tensor)
    (output_tensor : Tensor) (h : self.kernel_.get = none) :
    ((self.operator_call rt input_tensor bias output_tensor).aborted = true
        ↔ self.activation_ ∉ known_activations)
    ∧ ((self.operator_call rt input_tensor bias output_tensor).aborted = true →
        (∃ message,
          (self.operator_call rt input_tensor bias output_tensor).trace
            = [Event.ResizeImage output_tensor.opencl_image (self.output_shape input_tensor)
                 (rt.CalImage2DShape (self.output_shape input_tensor) BufferType.IN_OUT_CHANNEL),
               Event.LogFatal message])
        ∧ built (self.operator_call rt input_tensor bias output_tensor).trace = none
        ∧ bound (self.operator_call rt input_tensor bias output_tensor).trace = []
        ∧ dispatched (self.operator_call rt input_tensor bias output_tensor).trace = none
        ∧ (self.operator_call rt input_tensor bias output_tensor).functor.kernel_
            = self.kernel_)
    ∧ (self.activation_ ∈ known_activations →
        (self.operator_call rt input_tensor bias output_tensor).aborted = false
        ∧ (∀ message, Event.LogFatal message
            ∉ (self.operator_call rt input_tensor bias output_tensor).trace)
        ∧ (∃ request,
            dispatched (self.operator_call rt input_tensor bias output_tensor).trace
              = some request
            ∧ (self.operator_call rt input_tensor bias output_tensor).trace.getLast?
              = some (Event.TuningOrRun2DKernel request))) := by
  by_cases hk : self.activation_ ∈ known_activations
  · obtain ⟨o, ho⟩ := activation_switch_ok_of_known self.activation_ hk
      (self.base_options rt bias)
    rw [inverse_call_of_ok rt self input_tensor bias output_tensor h o ho]
    refine ⟨?_, ?_, ?_⟩
    · simp [hk]
    · intro hf
      simp at hf
    · intro _
      refine ⟨rfl, ?_, ?_⟩
      · intro message hm
        simp only [List.mem_cons, List.mem_append, List.mem_singleton] at hm
        rcases hm with (hm | hm) | hm
        · cases hm
        · exact inverse_build_and_bind_no_fatal rt self o input_tensor bias _ message hm
        · simp [WinogradInverseTransformFunctor.dispatch] at hm
      · refine ⟨WinogradInverseTransformFunctor.request
          (self.build_and_bind rt o input_tensor bias
            (output_tensor.ResizeImage (self.output_shape input_tensor)
              (rt.CalImage2DShape (self.output_shape input_tensor)
                BufferType.IN_OUT_CHANNEL))).1 input_tensor, ?_, ?_⟩
        · show dispatched (_ :: (_ ++ [WinogradInverseTransformFunctor.dispatch _ _])) = _
          simp only [dispatched]
          rw [dispatched_append_of_none _ _
            (inverse_build_and_bind_dispatched rt self o input_tensor bias _)]
          rfl
        · exact getLast_cons_append_singleton _ _ _
  · obtain ⟨raw, hr⟩ := unknown_of_not_known self.activation_ hk
    rw [inverse_call_of_unknown rt self input_tensor bias output_tensor h raw hr]
    refine ⟨?_, ?_, ?_⟩
    · simp [hk]
    · intro _
      exact ⟨⟨_, rfl⟩, rfl, rfl, rfl, rfl⟩
    · intro hk'
      exact absurd hk' hk

theorem inverse_fatal_iff_unknown_activation_witness :
    (sample_inverse (ActivationType.UNKNOWN 6)).kernel_.get = none
    ∧ ((sample_inverse (ActivationType.UNKNOWN 6)).operator_call sample_collaborators
        (sample_tensor 1 [16, 4, 4, 1]) none (sample_tensor 2 [])).aborted = true
    ∧ ((sample_inverse ActivationType.TANH).operator_call sample_collaborators
        (sample_tensor 1 [16, 4, 4, 1]) none (sample_tensor 2 [])).aborted = false :=
  ⟨rfl,
   (inverse_fatal_iff_unknown_activation sample_collaborators
      (sample_inverse (ActivationType.UNKNOWN 6)) (sample_tensor 1 [16, 4, 4, 1]) none
      (sample_tensor 2 []) rfl).1.2 (by decide),
   ((inverse_fatal_iff_unknown_activation sample_collaborators
      (sample_inverse ActivationType.TANH) (sample_tensor 1 [16, 4, 4, 1]) none
      (sample_tensor 2 []) rfl).2.2 (by decide)).1⟩

/-! ## The kernel is built at most once -/

theorem build_count_append (xs ys : List Event) :
    build_count (xs ++ ys) = build_count xs + build_count ys := by
  induction xs with
  | nil => simp [build_count]
  | cons e rest ih =>
    cases e <;> simp [build_count, ih]
    omega

theorem phase_uninitialized_iff (k : Kernel) : k.phase = Phase.Uninitialized ↔ k.get = none := by
  unfold Kernel.phase
  by_cases h : k.get = none <;> simp [h]

theorem phase_built_iff (k : Kernel) : k.phase = Phase.Built ↔ k.get ≠ none := by
  unfold Kernel.phase
  by_cases h : k.get = none <;> simp [h]

theorem forward_run_of_built (rt : Collaborators) :
    ∀ (inputs : List Tensor) (self : WinogradTransformFunctor) (output_tensor : Tensor),
      self.kernel_.get ≠ none →
        (WinogradTransformFunctor.run rt self output_tensor inputs).1 = self
        ∧ built (WinogradTransformFunctor.run rt self output_tensor inputs).2.2 = none
        ∧ bound (WinogradTransformFunctor.run rt self output_tensor inputs).2.2 = []
        ∧ build_count (WinogradTransformFunctor.run rt self output_tensor inputs).2.2 = 0 := by
  intro inputs
  induction inputs with
  | nil => intro self output_tensor _; exact ⟨rfl, rfl, rfl, rfl⟩
  | cons input_tensor rest ih =>
    intro self output_tensor h
    simp only [WinogradTransformFunctor.run]
    rw [forward_call_of_built rt self input_tensor output_tensor h]
    obtain ⟨h1, h2, h3, h4⟩ := ih self output_tensor h
    refine ⟨h1, ?_, ?_, ?_⟩
    · simpa [WinogradTransformFunctor.dispatch, built] using h2
    · simpa [WinogradTransformFunctor.dispatch, bound] using h3
    · simpa [WinogradTransformFunctor.dispatch, build_count] using h4

theorem forward_build_and_bind_count (rt : Collaborators) (self : WinogradTransformFunctor)
    (input_tensor output_tensor : Tensor) :
    build_count (self.build_and_bind rt input_tensor output_tensor).2.2 = 1 := rfl

theorem inverse_build_and_bind_handle (rt : Collaborators)
    (self : WinogradInverseTransformFunctor) (built_options : Finset String)
    (input_tensor : Tensor) (bias : Option Tensor) (output_tensor : Tensor) :
    (self.build_and_bind rt built_options input_tensor bias output_tensor).1.get
      = rt.BuildKernel "winograd_transform"
          (rt.MACE_OBFUSCATE_SYMBOL "winograd_inverse_transform_2x2") built_options := by
  cases bias <;> rfl

theorem inverse_build_and_bind_count (rt : Collaborators)
    (self : WinogradInverseTransformFunctor) (built_options : Finset String)
    (input_tensor : Tensor) (bias : Option Tensor) (output_tensor : Tensor) :
    build_count (self.build_and_bind rt built_options input_tensor bias output_tensor).2 = 1 := by
  cases bias <;> rfl

theorem inverse_run_of_built (rt : Collaborators) :
    ∀ (inputs : List (Tensor × Option Tensor)) (self : WinogradInverseTransformFunctor)
      (output_tensor : Tensor),
      self.kernel_.get ≠ none →
        (WinogradInverseTransformFunctor.run rt self output_tensor inputs).1 = self
        ∧ built (WinogradInverseTransformFunctor.run rt self output_tensor inputs).2.2 = none
        ∧ bound (WinogradInverseTransformFunctor.run rt self output_tensor inputs).2.2 = []
        ∧ build_count (WinogradInverseTransformFunctor.run rt self output_tensor inputs).2.2
            = 0 := by
  intro inputs
  induction inputs with
  | nil => intro self output_tensor _; exact ⟨rfl, rfl, rfl, rfl⟩
  | cons call rest ih =>
    intro self output_tensor h
    obtain ⟨input_tensor, bias⟩ := call
    simp only [WinogradInverseTransformFunctor.run]
    rw [inverse_call_of_built rt self input_tensor bias output_tensor h]
    obtain ⟨h1, h2, h3, h4⟩ := ih self
      (output_tensor.ResizeImage (self.output_shape input_tensor)
        (rt.CalImage2DShape (self.output_shape input_tensor) BufferType.IN_OUT_CHANNEL)) h
    refine ⟨?_, ?_, ?_, ?_⟩
    · simpa using h1
    · simpa [WinogradInverseTransformFunctor.dispatch, built] using h2
    · simpa [WinogradInverseTransformFunctor.dispatch, bound] using h3
    · simpa [WinogradInverseTransformFunctor.dispatch, build_count] using h4

theorem build_count_singleton_dispatch (request : DispatchRequest) :
    build_count [Event.TuningOrRun2DKernel request] = 0 := rfl

theorem forward_call_count_of_null (rt : Collaborators) (self : WinogradTransformFunctor)
    (input_tensor output_tensor : Tensor) (h : self.kernel_.get = none) :
    build_count (self.operator_call rt input_tensor output_tensor).trace = 1 := by
  rw [forward_call_of_null rt self input_tensor output_tensor h]
  show build_count ((self.build_and_bind rt input_tensor output_tensor).2.2
    ++ [Event.TuningOrRun2DKernel _]) = 1
  rw [build_count_append, forward_build_and_bind_count, build_count_singleton_dispatch]

theorem forward_call_built_of_null (rt : Collaborators)
    (hb : ∀ p n o, rt.BuildKernel p n o ≠ none) (self : WinogradTransformFunctor)
    (input_tensor output_tensor : Tensor) (h : self.kernel_.get = none) :
    (self.operator_call rt input_tensor output_tensor).functor.kernel_.get ≠ none := by
  rw [forward_call_of_null rt self input_tensor output_tensor h]
  show (self.build_and_bind rt input_tensor output_tensor).1.get ≠ none
  rw [forward_build_and_bind_handle]
  exact hb _ _ _

theorem forward_run_cons (rt : Collaborators) (self : WinogradTransformFunctor)
    (output_tensor input_tensor : Tensor) (rest : List Tensor) :
    (WinogradTransformFunctor.run rt self output_tensor (input_tensor :: rest)).2.2
      = (self.operator_call rt input_tensor output_tensor).trace
        ++ (WinogradTransformFunctor.run rt
              (self.operator_call rt input_tensor output_tensor).functor
              (self.operator_call rt input_tensor output_tensor).output_tensor rest).2.2 := rfl

theorem forward_build_count_le_one (rt : Collaborators)
    (hb : ∀ p n o, rt.BuildKernel p n o ≠ none) (inputs : List Tensor)
    (self : WinogradTransformFunctor) (output_tensor : Tensor) :
    build_count (WinogradTransformFunctor.run rt self output_tensor inputs).2.2 ≤ 1 := by
  by_cases h : self.kernel_.get = none
  · cases inputs with
    | nil => exact Nat.zero_le 1
    | cons input_tensor rest =>
      rw [forward_run_cons, build_count_append,
        forward_call_count_of_null rt self input_tensor output_tensor h,
        (forward_run_of_built rt rest _ _
          (forward_call_built_of_null rt hb self input_tensor output_tensor h)).2.2.2]
  · rw [(forward_run_of_built rt inputs self output_tensor h).2.2.2]
    exact Nat.zero_le 1

theorem inverse_call_count_of_ok (rt : Collaborators) (self : WinogradInverseTransformFunctor)
    (input_tensor : Tensor) (bias : Option Tensor) (output_tensor : Tensor)
    (h : self.kernel_.get = none) (hk : self.activation_ ∈ known_activations) :
    build_count (self.operator_call rt input_tensor bias output_tensor).trace = 1 := by
  obtain ⟨o, ho⟩ := activation_switch_ok_of_known self.activation_ hk
    (self.base_options rt bias)
  rw [inverse_call_of_ok rt self input_tensor bias output_tensor h o ho]
  show build_count ([Event.ResizeImage _ _ _]
    ++ (self.build_and_bind rt o input_tensor bias _).2
    ++ [Event.TuningOrRun2DKernel _]) = 1
  rw [build_count_append, build_count_append, inverse_build_and_bind_count,
    build_count_singleton_dispatch]
  rfl

theorem inverse_call_built_of_ok (rt : Collaborators)
    (hb : ∀ p n o, rt.BuildKernel p n o ≠ none) (self : WinogradInverseTransformFunctor)
    (input_tensor : Tensor) (bias : Option Tensor) (output_tensor : Tensor)
    (h : self.kernel_.get = none) (hk : self.activation_ ∈ known_activations) :
    (self.operator_call rt input_tensor bias output_tensor).functor.kernel_.get ≠ none
    ∧ (self.operator_call rt input_tensor bias output_tensor).aborted = false := by
  obtain ⟨o, ho⟩ := activation_switch_ok_of_known self.activation_ hk
    (self.base_options rt bias)
  rw [inverse_call_of_ok rt self input_tensor bias output_tensor h o ho]
  refine ⟨?_, rfl⟩
  show (self.build_and_bind rt o input_tensor bias _).1.get ≠ none
  rw [inverse_build_and_bind_handle]
  exact hb _ _ _

theorem inverse_run_cons (rt : Collaborators) (self : WinogradInverseTransformFunctor)
    (output_tensor input_tensor : Tensor) (bias : Option Tensor)
    (rest : List (Tensor × Option Tensor))
    (h : (self.operator_call rt input_tensor bias output_tensor).aborted = false) :
    (WinogradInverseTransformFunctor.run rt self output_tensor
        ((input_tensor, bias) :: rest)).2.2
      = (self.operator_call rt input_tensor bias output_tensor).trace
        ++ (WinogradInverseTransformFunctor.run rt
              (self.operator_call rt input_tensor bias output_tensor).functor
              (self.operator_call rt input_tensor bias output_tensor).output_tensor
              rest).2.2 := by
  simp only [WinogradInverseTransformFunctor.run, h, Bool.false_eq_true, if_false]

theorem inverse_run_cons_aborted (rt : Collaborators) (self : WinogradInverseTransformFunctor)
    (output_tensor input_tensor : Tensor) (bias : Option Tensor)
    (rest : List (Tensor × Option Tensor))
    (h : (self.operator_call rt input_tensor bias output_tensor).aborted = true) :
    (WinogradInverseTransformFunctor.run rt self output_tensor
        ((input_tensor, bias) :: rest)).2.2
      = (self.operator_call rt input_tensor bias output_tensor).trace := by
  simp only [WinogradInverseTransformFunctor.run, h, if_true]

theorem inverse_build_count_le_one (rt : Collaborators)
    (hb : ∀ p n o, rt.BuildKernel p n o ≠ none) (inputs : List (Tensor × Option Tensor))
    (self : WinogradInverseTransformFunctor) (output_tensor : Tensor) :
    build_count (WinogradInverseTransformFunctor.run rt self output_tensor inputs).2.2 ≤ 1 := by
  by_cases h : self.kernel_.get = none
  · cases inputs with
    | nil => exact Nat.zero_le 1
    | cons call rest =>
      obtain ⟨input_tensor, bias⟩ := call
      by_cases hk : self.activation_ ∈ known_activations
      · obtain ⟨hbuilt, hna⟩ :=
          inverse_call_built_of_ok rt hb self input_tensor bias output_tensor h hk
        rw [inverse_run_cons rt self output_tensor input_tensor bias rest hna,
          build_count_append,
          inverse_call_count_of_ok rt self input_tensor bias output_tensor h hk,
          (inverse_run_of_built rt rest _ _ hbuilt).2.2.2]
      · obtain ⟨raw, hr⟩ := unknown_of_not_known self.activation_ hk
        rw [inverse_run_cons_aborted rt self output_tensor input_tensor bias rest
          (by rw [inverse_call_of_unknown rt self input_tensor bias output_tensor h raw hr]),
          inverse_call_of_unknown rt self input_tensor bias output_tensor h raw hr]
        exact Nat.zero_le 1
  · rw [(inverse_run_of_built rt inputs self output_tensor h).2.2.2]
    exact Nat.zero_le 1

/-- C5 as stated fails on the code: with a program builder that never returns
a null kernel, the first invocation of an inverse functor whose activation
kind has no case label is aborted before the build, and the functor is still
Uninitialized, not Built. -/
theorem inverse_first_call_not_built_counterexample :
    (∀ p n o, sample_collaborators.BuildKernel p n o ≠ none)
    ∧ (sample_inverse (ActivationType.UNKNOWN 6)).kernel_.phase = Phase.Uninitialized
    ∧ ((sample_inverse (ActivationType.UNKNOWN 6)).operator_call sample_collaborators
        (sample_tensor 1 [16, 4, 4, 1]) none (sample_tensor 2 [])).functor.kernel_.phase
          = Phase.Uninitialized
    ∧ ((sample_inverse (ActivationType.UNKNOWN 6)).operator_call sample_collaborators
        (sample_tensor 1 [16, 4, 4, 1]) none (sample_tensor 2 [])).functor.kernel_.phase
          ≠ Phase.Built := by
  refine ⟨?_, by decide, by decide, by decide⟩
  intro p n o
  simp [sample_collaborators]

/-- C5, amended: assume the program builder never returns a null kernel.
For the forward functor, and for the inverse functor whose activation kind is
one of the six with a case label, the first invocation moves the functor from
Uninitialized to Built, and any sequence of later invocations on the same
instance, whatever their inputs, makes no `BuildKernel` call and no `setArg`
call and leaves `kernel_` (handle and bound arguments) exactly as the first
invocation left it; the first invocation and the later ones together hold one
`BuildKernel` call.  For either functor, in any state and with any activation
kind, a sequence of invocations holds at most one `BuildKernel` call. -/
theorem kernel_built_at_most_once :
    (∀ (rt : Collaborators) (self : WinogradTransformFunctor) (output_tensor : Tensor)
        (first : Tensor) (rest : List Tensor),
      (∀ p n o, rt.BuildKernel p n o ≠ none) →
      self.kernel_.phase = Phase.Uninitialized →
        (self.operator_call rt first output_tensor).functor.kernel_.phase = Phase.Built
        ∧ (WinogradTransformFunctor.run rt
              (self.operator_call rt first output_tensor).functor
              (self.operator_call rt first output_tensor).output_tensor rest).1.kernel_
            = (self.operator_call rt first output_tensor).functor.kernel_
        ∧ built (WinogradTransformFunctor.run rt
              (self.operator_call rt first output_tensor).functor
              (self.operator_call rt first output_tensor).output_tensor rest).2.2 = none
        ∧ bound (WinogradTransformFunctor.run rt
              (self.operator_call rt first output_tensor).functor
              (self.operator_call rt first output_tensor).output_tensor rest).2.2 = []
        ∧ build_count
            (WinogradTransformFunctor.run rt self output_tensor (first :: rest)).2.2 = 1)
    ∧ (∀ (rt : Collaborators) (self : WinogradTransformFunctor) (output_tensor : Tensor)
        (inputs : List Tensor),
      (∀ p n o, rt.BuildKernel p n o ≠ none) →
        build_count (WinogradTransformFunctor.run rt self output_tensor inputs).2.2 ≤ 1)
    ∧ (∀ (rt : Collaborators) (self : WinogradInverseTransformFunctor) (output_tensor : Tensor)
        (first : Tensor) (bias : Option Tensor) (rest : List (Tensor × Option Tensor)),
      (∀ p n o, rt.BuildKernel p n o ≠ none) →
      self.kernel_.phase = Phase.Uninitialized →
      self.activation_ ∈ known_activations →
        (self.operator_call rt first bias output_tensor).functor.kernel_.phase = Phase.Built
        ∧ (WinogradInverseTransformFunctor.run rt
              (self.operator_call rt first bias output_tensor).functor
              (self.operator_call rt first bias output_tensor).output_tensor rest).1.kernel_
            = (self.operator_call rt first bias output_tensor).functor.kernel_
        ∧ built (WinogradInverseTransformFunctor.run rt
              (self.operator_call rt first bias output_tensor).functor
              (self.operator_call rt first bias output_tensor).output_tensor rest).2.2 = none
        ∧ bound (WinogradInverseTransformFunctor.run rt
              (self.operator_call rt first bias output_tensor).functor
              (self.operator_call rt first bias output_tensor).output_tensor rest).2.2 = []
        ∧ build_count
            (WinogradInverseTransformFunctor.run rt self output_tensor
              ((first, bias) :: rest)).2.2 = 1)
    ∧ (∀ (rt : Collaborators) (self : WinogradInverseTransformFunctor) (output_tensor : Tensor)
        (inputs : List (Tensor × Option Tensor)),
      (∀ p n o, rt.BuildKernel p n o ≠ none) →
        build_count (WinogradInverseTransformFunctor.run rt self output_tensor inputs).2.2
          ≤ 1) := by
  refine ⟨?_, ?_, ?_, ?_⟩
  · intro rt self output_tensor first rest hb h0
    have h : self.kernel_.get = none := (phase_uninitialized_iff _).1 h0
    have hbuilt := forward_call_built_of_null rt hb self first output_tensor h
    obtain ⟨l1, l2, l3, l4⟩ := forward_run_of_built rt rest
      (self.operator_call rt first output_tensor).functor
      (self.operator_call rt first output_tensor).output_tensor hbuilt
    refine ⟨(phase_built_iff _).2 hbuilt, by rw [l1], l2, l3, ?_⟩
    rw [forward_run_cons, build_count_append,
      forward_call_count_of_null rt self first output_tensor h, l4]
  · intro rt self output_tensor inputs hb
    exact forward_build_count_le_one rt hb inputs self output_tensor
  · intro rt self output_tensor first bias rest hb h0 hk
    have h : self.kernel_.get = none := (phase_uninitialized_iff _).1 h0
    obtain ⟨hbuilt, hna⟩ := inverse_call_built_of_ok rt hb self first bias output_tensor h hk
    obtain ⟨l1, l2, l3, l4⟩ := inverse_run_of_built rt rest
      (self.operator_call rt first bias output_tensor).functor
      (self.operator_call rt first bias output_tensor).output_tensor hbuilt
    refine ⟨(phase_built_iff _).2 hbuilt, by rw [l1], l2, l3, ?_⟩
    rw [inverse_run_cons rt self output_tensor first bias rest hna, build_count_append,
      inverse_call_count_of_ok rt self first bias output_tensor h hk, l4]
  · intro rt self output_tensor inputs hb
    exact inverse_build_count_le_one rt hb inputs self output_tensor

theorem kernel_built_at_most_once_witness :
    ((∀ p n o, sample_collaborators.BuildKernel p n o ≠ none)
      ∧ (sample_forward Padding.SAME).kernel_.phase = Phase.Uninitialized
      ∧ (sample_inverse ActivationType.RELU).kernel_.phase = Phase.Uninitialized
      ∧ (sample_inverse ActivationType.RELU).activation_ ∈ known_activations)
    ∧ build_count
        (WinogradTransformFunctor.run sample_collaborators (sample_forward Padding.SAME)
          (sample_tensor 2 [])
          (sample_tensor 1 [1, 4, 4, 4] :: [sample_tensor 1 [1, 6, 6, 4]])).2.2 = 1
    ∧ build_count
        (WinogradInverseTransformFunctor.run sample_collaborators
          (sample_inverse ActivationType.RELU) (sample_tensor 2 [])
          ((sample_tensor 1 [16, 4, 4, 1], none)
            :: [(sample_tensor 1 [16, 4, 9, 1], none)])).2.2 = 1 :=
  ⟨⟨sample_builder_never_null, rfl, rfl, by decide⟩,
   (kernel_built_at_most_once.1 sample_collaborators (sample_forward Padding.SAME)
      (sample_tensor 2 []) (sample_tensor 1 [1, 4, 4, 4]) [sample_tensor 1 [1, 6, 6, 4]]
      sample_builder_never_null rfl).2.2.2.2,
   (kernel_built_at_most_once.2.2.1 sample_collaborators (sample_inverse ActivationType.RELU)
      (sample_tensor 2 []) (sample_tensor 1 [16, 4, 4, 1]) none
      [(sample_tensor 1 [16, 4, 9, 1], none)]
      sample_builder_never_null rfl (by decide)).2.2.2.2⟩

/-! ## The request handed to the dispatcher -/

theorem forward_dispatched (rt : Collaborators) (self : WinogradTransformFunctor)
    (input_tensor output_tensor : Tensor) :
    dispatched (self.operator_call rt input_tensor output_tensor).trace
      = some (self.request rt
          (self.operator_call rt input_tensor output_tensor).functor.kernel_ input_tensor)
    ∧ (self.operator_call rt input_tensor output_tensor).trace.getLast?
      = some (Event.TuningOrRun2DKernel (self.request rt
          (self.operator_call rt input_tensor output_tensor).functor.kernel_ input_tensor)) := by
  by_cases h : self.kernel_.get = none
  · rw [forward_call_of_null rt self input_tensor output_tensor h]
    refine ⟨?_, ?_⟩
    · show dispatched ((self.build_and_bind rt input_tensor output_tensor).2.2
        ++ [Event.TuningOrRun2DKernel _]) = _
      have quiet : dispatched (self.build_and_bind rt input_tensor output_tensor).2.2
          = none := rfl
      rw [dispatched_append_of_none _ _ quiet]
      rfl
    · show ((self.build_and_bind rt input_tensor output_tensor).2.2
        ++ [Event.TuningOrRun2DKernel _]).getLast? = _
      rw [List.getLast?_concat]
  · rw [forward_call_of_built rt self input_tensor output_tensor h]
    exact ⟨rfl, rfl⟩

/-- C6 as stated fails on the code: with the SAME policy, stride 1 and dilation
1, the input shape `[65536, 512, 512, 4]` has all four values below `2^32`, and
`out_width = 65536 * 256 * 256 = 4294967296`; the global work size handed to the
dispatcher is `(0, 1)`, not `(4294967296, 1)`, because `out_width` is converted
to `uint32_t`. -/
theorem forward_gws_wraps_counterexample :
    (sample_tensor 1 [65536, 512, 512, 4]).shape = [65536, 512, 512, 4]
    ∧ (sample_forward Padding.SAME).round_h sample_collaborators
        (sample_tensor 1 [65536, 512, 512, 4]) = 256
    ∧ (sample_forward Padding.SAME).round_w sample_collaborators
        (sample_tensor 1 [65536, 512, 512, 4]) = 256
    ∧ (sample_forward Padding.SAME).out_width sample_collaborators
        (sample_tensor 1 [65536, 512, 512, 4]) = 4294967296
    ∧ RoundUpDiv4 4 = 1
    ∧ (dispatched ((sample_forward Padding.SAME).operator_call sample_collaborators
        (sample_tensor 1 [65536, 512, 512, 4]) (sample_tensor 2 [])).trace).map
          DispatchRequest.gws = some [0, 1] := by
  refine ⟨rfl, by decide, by decide, by decide, by decide, ?_⟩
  rw [(forward_dispatched _ _ _ _).1]
  decide

/-- C6, amended: on every invocation of the forward functor with input shape
`[B, H, W, C]`, the request handed to the dispatcher is the last effect of the
invocation; its global work size is `(out_width mod 2^32, ceil(C/4) mod 2^32)`
with `out_width = B * round_h * round_w` of that invocation (the `index_t`
product, whose wrap-around leaves the value modulo `2^32` as it is), which is
`(out_width, ceil(C/4))` when `C` and `out_width` are non-negative and below
`2^32`; its preferred local work size is `(128, 8, 1)`; its cache key is
`winograd_transform_kernel_` followed by the decimal values of `B`, `H`, `W`,
`C` joined by `_`. -/
theorem forward_dispatch_request (rt : Collaborators) (self : WinogradTransformFunctor)
    (input_tensor output_tensor : Tensor) (B H W C : Int)
    (hshape : input_tensor.shape = [B, H, W, C]) :
    ∃ request : DispatchRequest,
      dispatched (self.operator_call rt input_tensor output_tensor).trace = some request
      ∧ (self.operator_call rt input_tensor output_tensor).trace.getLast?
          = some (Event.TuningOrRun2DKernel request)
      ∧ request.kernel = (self.operator_call rt input_tensor output_tensor).functor.kernel_
      ∧ self.out_width rt input_tensor
          = wrap_int64 (B * self.round_h rt input_tensor * self.round_w rt input_tensor)
      ∧ request.gws = [static_cast_uint32 (self.out_width rt input_tensor),
                       static_cast_uint32 (RoundUpDiv4 C)]
      ∧ (0 ≤ C → C < 4294967296 →
          0 ≤ self.out_width rt input_tensor → self.out_width rt input_tensor < 4294967296 →
            request.gws.map Int.ofNat = [self.out_width rt input_tensor, RoundUpDiv4 C])
      ∧ (C ≤ 4 * RoundUpDiv4 C ∧ ∀ r : Int, C ≤ 4 * r → RoundUpDiv4 C ≤ r)
      ∧ request.lws = [128, 8, 1]
      ∧ request.tuning_key
          = "winograd_transform_kernel_" ++ toString B ++ "_" ++ toString H ++ "_"
              ++ toString W ++ "_" ++ toString C
      ∧ request.gws
          = [static_cast_uint32
               (B * self.round_h rt input_tensor * self.round_w rt input_tensor),
             static_cast_uint32 (RoundUpDiv4 C)]
      ∧ (0 ≤ C → C < 4294967296 →
          0 ≤ B * self.round_h rt input_tensor * self.round_w rt input_tensor →
          B * self.round_h rt input_tensor * self.round_w rt input_tensor < 4294967296 →
            request.gws.map Int.ofNat
              = [B * self.round_h rt input_tensor * self.round_w rt input_tensor,
                 RoundUpDiv4 C]) := by
  have d0 : input_tensor.dim 0 = B := by simp [Tensor.dim, hshape]
  have d1 : input_tensor.dim 1 = H := by simp [Tensor.dim, hshape]
  have d2 : input_tensor.dim 2 = W := by simp [Tensor.dim, hshape]
  have d3 : input_tensor.dim 3 = C := by simp [Tensor.dim, hshape]
  refine ⟨self.request rt
    (self.operator_call rt input_tensor output_tensor).functor.kernel_ input_tensor,
    (forward_dispatched rt self input_tensor output_tensor).1,
    (forward_dispatched rt self input_tensor output_tensor).2, rfl, ?_, ?_, ?_,
    RoundUpDiv4_is_least C, rfl, ?_, ?_, ?_⟩
  · rw [← d0]; exact forward_out_width_eq rt self input_tensor
  · rw [← d3]; rfl
  · intro c0 c1 w0 w1
    show [(static_cast_uint32 (self.out_width rt input_tensor) : Int),
      (static_cast_uint32 (RoundUpDiv4 (input_tensor.dim 3)) : Int)] = _
    rw [d3, static_cast_uint32_of_range _ w0 w1,
      static_cast_uint32_of_range (RoundUpDiv4 C)
        (by unfold RoundUpDiv4; omega) (by unfold RoundUpDiv4; omega)]
  · show WinogradTransformFunctor.tuning_key input_tensor = _
    unfold WinogradTransformFunctor.tuning_key
    rw [d0, d1, d2, d3]
  · show [static_cast_uint32 (self.out_width rt input_tensor),
      static_cast_uint32 (RoundUpDiv4 (input_tensor.dim 3))] = _
    rw [forward_out_width_eq, static_cast_uint32_wrap_int64, d0, d3]
  · intro c0 c1 w0 w1
    show [(static_cast_uint32 (self.out_width rt input_tensor) : Int),
      (static_cast_uint32 (RoundUpDiv4 (input_tensor.dim 3)) : Int)] = _
    rw [forward_out_width_eq, static_cast_uint32_wrap_int64, d0, d3,
      static_cast_uint32_of_range _ w0 w1,
      static_cast_uint32_of_range (RoundUpDiv4 C)
        (by unfold RoundUpDiv4; omega) (by unfold RoundUpDiv4; omega)]

theorem forward_dispatch_request_witness :
    ((sample_tensor 1 [1, 4, 4, 4]).shape = [1, 4, 4, 4]
      ∧ (0 : Int) ≤ 4 ∧ (4 : Int) < 4294967296
      ∧ 0 ≤ (sample_forward Padding.SAME).out_width sample_collaborators
              (sample_tensor 1 [1, 4, 4, 4])
      ∧ (sample_forward Padding.SAME).out_width sample_collaborators
              (sample_tensor 1 [1, 4, 4, 4]) < 4294967296)
    ∧ ∃ request : DispatchRequest,
        dispatched ((sample_forward Padding.SAME).operator_call sample_collaborators
          (sample_tensor 1 [1, 4, 4, 4]) (sample_tensor 2 [])).trace = some request
        ∧ request.gws = [4, 1]
        ∧ request.gws.map Int.ofNat
            = [(sample_forward Padding.SAME).out_width sample_collaborators
                (sample_tensor 1 [1, 4, 4, 4]), RoundUpDiv4 4]
        ∧ request.tuning_key = "winograd_transform_kernel_1_4_4_4" := by
  obtain ⟨request, h1, _, _, _, h5, h6, _, _, h9, _, _⟩ :=
    forward_dispatch_request sample_collaborators (sample_forward Padding.SAME)
      (sample_tensor 1 [1, 4, 4, 4]) (sample_tensor 2 []) 1 4 4 4 rfl
  refine ⟨⟨rfl, by decide, by decide, by decide, by decide⟩, request, h1, ?_,
    h6 (by decide) (by decide) (by decide) (by decide), ?_⟩
  · rw [h5]; decide
  · rw [h9]; decide

theorem inverse_dispatched (rt : Collaborators) (self : WinogradInverseTransformFunctor)
    (input_tensor : Tensor) (bias : Option Tensor) (output_tensor : Tensor) :
    ((self.operator_call rt input_tensor bias output_tensor).aborted = true
      ∧ dispatched (self.operator_call rt input_tensor bias output_tensor).trace = none)
    ∨ ((self.operator_call rt input_tensor bias output_tensor).aborted = false
      ∧ dispatched (self.operator_call rt input_tensor bias output_tensor).trace
        = some (WinogradInverseTransformFunctor.request
            (self.operator_call rt input_tensor bias output_tensor).functor.kernel_
            input_tensor)
      ∧ (self.operator_call rt input_tensor bias output_tensor).trace.getLast?
        = some (Event.TuningOrRun2DKernel (WinogradInverseTransformFunctor.request
            (self.operator_call rt input_tensor bias output_tensor).functor.kernel_
            input_tensor))) := by
  by_cases h : self.kernel_.get = none
  · by_cases hk : self.activation_ ∈ known_activations
    · obtain ⟨o, ho⟩ := activation_switch_ok_of_known self.activation_ hk
        (self.base_options rt bias)
      rw [inverse_call_of_ok rt self input_tensor bias output_tensor h o ho]
      refine Or.inr ⟨rfl, ?_, getLast_cons_append_singleton _ _ _⟩
      show dispatched (_ :: (_ ++ [WinogradInverseTransformFunctor.dispatch _ _])) = _
      simp only [dispatched]
      rw [dispatched_append_of_none _ _
        (inverse_build_and_bind_dispatched rt self o input_tensor bias _)]
      rfl
    · obtain ⟨raw, hr⟩ := unknown_of_not_known self.activation_ hk
      rw [inverse_call_of_unknown rt self input_tensor bias output_tensor h raw hr]
      exact Or.inl ⟨rfl, rfl⟩
  · rw [inverse_call_of_built rt self input_tensor bias output_tensor h]
    exact Or.inr ⟨rfl, rfl, rfl⟩

/-- C7 as stated fails on the code.  For the input shape
`[16, 4294967301, 4294967303, 1]` the global work size handed over is
`(7, 1073741826)`: dim 2 is converted to `uint32_t` by line 134, so it is not
`(d2, ceil(d1/4)) = (4294967303, 1073741826)`.  And a tensor is not always
shaped by the forward invocation that wrote it: a forward functor invoked on
`[1,4,4,4]` and then on `[1,4,4,8]` dispatches its second call with `(4, 2)`
and leaves its output with the shape `[16,4,4,1]`, on which the inverse
functor dispatches with `(4, 1)`. -/
theorem inverse_gws_wraps_counterexample :
    (sample_tensor 1 [16, 4294967301, 4294967303, 1]).dim 2 = 4294967303
    ∧ RoundUpDiv4 ((sample_tensor 1 [16, 4294967301, 4294967303, 1]).dim 1) = 1073741826
    ∧ (dispatched ((sample_inverse ActivationType.NOOP).operator_call sample_collaborators
        (sample_tensor 1 [16, 4294967301, 4294967303, 1]) none (sample_tensor 2 [])).trace).map
          DispatchRequest.gws = some [7, 1073741826]
    ∧ (WinogradTransformFunctor.run sample_collaborators (sample_forward Padding.SAME)
        (sample_tensor 2 [])
        [sample_tensor 1 [1, 4, 4, 4], sample_tensor 1 [1, 4, 4, 8]]).2.1.shape = [16, 4, 4, 1]
    ∧ (dispatched
        ((WinogradTransformFunctor.run sample_collaborators (sample_forward Padding.SAME)
            (sample_tensor 2 []) [sample_tensor 1 [1, 4, 4, 4]]).1.operator_call
          sample_collaborators (sample_tensor 1 [1, 4, 4, 8])
          (WinogradTransformFunctor.run sample_collaborators (sample_forward Padding.SAME)
            (sample_tensor 2 []) [sample_tensor 1 [1, 4, 4, 4]]).2.1).trace).map
          DispatchRequest.gws = some [4, 2]
    ∧ (dispatched ((sample_inverse ActivationType.NOOP).operator_call sample_collaborators
        (WinogradTransformFunctor.run sample_collaborators (sample_forward Padding.SAME)
          (sample_tensor 2 [])
          [sample_tensor 1 [1, 4, 4, 4], sample_tensor 1 [1, 4, 4, 8]]).2.1
        none (sample_tensor 3 [])).trace).map DispatchRequest.gws = some [4, 1] := by
  refine ⟨by decide, by decide, by decide, by decide, ?_, by decide⟩
  rw [(forward_dispatched _ _ _ _).1]
  decide

/-- C7, amended: on every invocation of the inverse functor that is not aborted a
request is handed to the dispatcher, and every request handed over has the
global work size `(d2 mod 2^32, ceil(d1/4) mod 2^32)`, where `d1` and `d2` are
dims 1 and 2 of the input tensor, and the preferred local work size
`(128, 8, 1)`: the configured batch, height and width do not occur in it.
For a packed input of shape `[16, C, N, 1]` it is
`(N mod 2^32, ceil(C/4) mod 2^32)`, exactly `(N, ceil(C/4))` for `C` and `N`
non-negative and below `2^32`, and it is the global work size of every forward
invocation with `C` input channels and `out_width = N`; the output tensor of
the first invocation of a forward functor has this shape for that
invocation. -/
theorem inverse_gws_from_input_dims :
    (∀ (rt : Collaborators) (self : WinogradInverseTransformFunctor) (input_tensor : Tensor)
        (bias : Option Tensor) (output_tensor : Tensor),
      ((self.operator_call rt input_tensor bias output_tensor).aborted = false →
        ∃ request,
          dispatched (self.operator_call rt input_tensor bias output_tensor).trace
            = some request)
      ∧ ∀ request,
          dispatched (self.operator_call rt input_tensor bias output_tensor).trace
            = some request →
          request.gws = [static_cast_uint32 (input_tensor.dim 2),
                         static_cast_uint32 (RoundUpDiv4 (input_tensor.dim 1))]
          ∧ request.lws = [128, 8, 1])
    ∧ (∀ (rt : Collaborators) (self : WinogradInverseTransformFunctor)
        (opencl_image : Nat) (C N : Int) (image_shape : List Nat)
        (bias : Option Tensor) (output_tensor : Tensor) (request : DispatchRequest),
      dispatched (self.operator_call rt
          { opencl_image := opencl_image, shape := [16, C, N, 1], image_shape := image_shape }
          bias output_tensor).trace = some request →
        request.gws = [static_cast_uint32 N, static_cast_uint32 (RoundUpDiv4 C)]
        ∧ (0 ≤ C → C < 4294967296 → 0 ≤ N → N < 4294967296 →
            request.gws.map Int.ofNat = [N, RoundUpDiv4 C])
        ∧ (C ≤ 4 * RoundUpDiv4 C ∧ ∀ r : Int, C ≤ 4 * r → RoundUpDiv4 C ≤ r))
    ∧ (∀ (rt : Collaborators) (fwd : WinogradTransformFunctor) (x forward_output : Tensor)
        (forward_request : DispatchRequest)
        (rt' : Collaborators) (self : WinogradInverseTransformFunctor) (packed : Tensor)
        (bias : Option Tensor) (output_tensor : Tensor) (request : DispatchRequest),
      dispatched (fwd.operator_call rt x forward_output).trace = some forward_request →
      packed.shape = [16, x.dim 3, fwd.out_width rt x, 1] →
      dispatched (self.operator_call rt' packed bias output_tensor).trace = some request →
        request.gws = forward_request.gws)
    ∧ (∀ (rt : Collaborators) (fwd : WinogradTransformFunctor) (x forward_output : Tensor),
      fwd.kernel_.get = none →
        (fwd.operator_call rt x forward_output).output_tensor.shape
          = [16, x.dim 3, fwd.out_width rt x, 1]) := by
  have general : ∀ (rt : Collaborators) (self : WinogradInverseTransformFunctor)
      (input_tensor : Tensor) (bias : Option Tensor) (output_tensor : Tensor)
      (request : DispatchRequest),
      dispatched (self.operator_call rt input_tensor bias output_tensor).trace
        = some request →
      request.gws = [static_cast_uint32 (input_tensor.dim 2),
                     static_cast_uint32 (RoundUpDiv4 (input_tensor.dim 1))]
      ∧ request.lws = [128, 8, 1] := by
    intro rt self input_tensor bias output_tensor request hreq
    rcases inverse_dispatched rt self input_tensor bias output_tensor with
      ⟨_, hnone⟩ | ⟨_, hsome, _⟩
    · rw [hnone] at hreq
      cases hreq
    · rw [hsome] at hreq
      cases hreq
      exact ⟨rfl, rfl⟩
  refine ⟨?_, ?_, ?_, ?_⟩
  · intro rt self input_tensor bias output_tensor
    refine ⟨?_, general rt self input_tensor bias output_tensor⟩
    intro hna
    rcases inverse_dispatched rt self input_tensor bias output_tensor with
      ⟨hab, _⟩ | ⟨_, hsome, _⟩
    · rw [hab] at hna
      cases hna
    · exact ⟨_, hsome⟩
  · intro rt self opencl_image C N image_shape bias output_tensor request hreq
    have hg := (general rt self _ bias output_tensor request hreq).1
    have e : request.gws = [static_cast_uint32 N, static_cast_uint32 (RoundUpDiv4 C)] := hg
    refine ⟨e, ?_, RoundUpDiv4_is_least C⟩
    intro c0 c1 n0 n1
    rw [e]
    show [(static_cast_uint32 N : Int), (static_cast_uint32 (RoundUpDiv4 C) : Int)] = _
    rw [static_cast_uint32_of_range _ n0 n1,
      static_cast_uint32_of_range (RoundUpDiv4 C)
        (by unfold RoundUpDiv4; omega) (by unfold RoundUpDiv4; omega)]
  · intro rt fwd x forward_output forward_request rt' self packed bias output_tensor request
      hf hshape hreq
    rw [(forward_dispatched rt fwd x forward_output).1] at hf
    cases hf
    rw [(general rt' self packed bias output_tensor request hreq).1]
    have p1 : packed.dim 1 = x.dim 3 := by simp [Tensor.dim, hshape]
    have p2 : packed.dim 2 = fwd.out_width rt x := by simp [Tensor.dim, hshape]
    rw [p1, p2]
    rfl
  · intro rt fwd x forward_output h
    rw [forward_call_of_null rt fwd x forward_output h]
    rfl

theorem inverse_gws_from_input_dims_witness :
    (((sample_inverse ActivationType.NOOP).operator_call sample_collaborators
        (sample_tensor 1 [16, 7, 12, 1]) none (sample_tensor 2 [])).aborted = false
      ∧ (sample_forward Padding.SAME).kernel_.get = none
      ∧ (0 : Int) ≤ 7 ∧ (7 : Int) < 4294967296 ∧ (0 : Int) ≤ 12 ∧ (12 : Int) < 4294967296)
    ∧ ∃ request,
        dispatched ((sample_inverse ActivationType.NOOP).operator_call sample_collaborators
          (sample_tensor 1 [16, 7, 12, 1]) none (sample_tensor 2 [])).trace = some request
        ∧ request.gws = [12, 2]
        ∧ request.gws.map Int.ofNat = [12, RoundUpDiv4 7]
        ∧ (dispatched ((sample_forward Padding.SAME).operator_call sample_collaborators
            (sample_tensor 3 [3, 4, 4, 7]) (sample_tensor 1 [])).trace).map
              DispatchRequest.gws = some request.gws
        ∧ ((sample_forward Padding.SAME).operator_call sample_collaborators
            (sample_tensor 3 [3, 4, 4, 7]) (sample_tensor 1 [])).output_tensor.shape
              = [16, 7, 12, 1] := by
  have hna : ((sample_inverse ActivationType.NOOP).operator_call sample_collaborators
      (sample_tensor 1 [16, 7, 12, 1]) none (sample_tensor 2 [])).aborted = false := rfl
  obtain ⟨request, hreq⟩ :=
    (inverse_gws_from_input_dims.1 sample_collaborators (sample_inverse ActivationType.NOOP)
      (sample_tensor 1 [16, 7, 12, 1]) none (sample_tensor 2 [])).1 hna
  have packed := inverse_gws_from_input_dims.2.1 sample_collaborators
    (sample_inverse ActivationType.NOOP) 1 7 12 [] none (sample_tensor 2 []) request hreq
  have same := inverse_gws_from_input_dims.2.2.1 sample_collaborators
    (sample_forward Padding.SAME) (sample_tensor 3 [3, 4, 4, 7]) (sample_tensor 1 []) _
    sample_collaborators (sample_inverse ActivationType.NOOP)
    (sample_tensor 1 [16, 7, 12, 1]) none (sample_tensor 2 []) request
    (forward_dispatched _ _ _ _).1 (by decide) hreq
  have produced := inverse_gws_from_input_dims.2.2.2 sample_collaborators
    (sample_forward Padding.SAME) (sample_tensor 3 [3, 4, 4, 7]) (sample_tensor 1 []) rfl
  refine ⟨⟨hna, rfl, by decide, by decide, by decide, by decide⟩, request, hreq, ?_,
    packed.2.1 (by decide) (by decide) (by decide) (by decide), ?_, ?_⟩
  · rw [packed.1]; decide
  · rw [(forward_dispatched _ _ _ _).1, same]; rfl
  · rw [produced]; decide

/-! ## The concrete forward scenario -/

/-- C8 as stated fails for the VALID policy of the spec's shape calculator: for
the input shape `[1,4,4,4]` with no explicit padding, stride 1 and dilation 1,
the 3x3 filter fits on a 2x2 grid of positions, so the first invocation of the
forward functor computes `round_h = round_w = 1` and `out_width = 1`, leaves
the output tensor with the shape `[16,4,1,1]` and dispatches with the global
work size `(1, 1)`. -/
theorem forward_scenario_valid_counterexample :
    (sample_forward Padding.VALID).paddings_ = []
    ∧ (sample_forward Padding.VALID).kernel_.get = none
    ∧ (sample_forward Padding.VALID).output_shape (with_spec_calculator sample_collaborators)
        (sample_tensor 1 [1, 4, 4, 4]) = [1, 2, 2, 4]
    ∧ (sample_forward Padding.VALID).round_h (with_spec_calculator sample_collaborators)
        (sample_tensor 1 [1, 4, 4, 4]) = 1
    ∧ (sample_forward Padding.VALID).round_w (with_spec_calculator sample_collaborators)
        (sample_tensor 1 [1, 4, 4, 4]) = 1
    ∧ (sample_forward Padding.VALID).out_width (with_spec_calculator sample_collaborators)
        (sample_tensor 1 [1, 4, 4, 4]) = 1
    ∧ ((sample_forward Padding.VALID).operator_call (with_spec_calculator sample_collaborators)
        (sample_tensor 1 [1, 4, 4, 4]) (sample_tensor 2 [])).output_tensor.shape
          = [16, 4, 1, 1]
    ∧ (dispatched ((sample_forward Padding.VALID).operator_call
        (with_spec_calculator sample_collaborators)
        (sample_tensor 1 [1, 4, 4, 4]) (sample_tensor 2 [])).trace).map
          DispatchRequest.gws = some [1, 1] := by
  refine ⟨rfl, rfl, by decide, by decide, by decide, by decide, by decide, ?_⟩
  rw [(forward_dispatched _ _ _ _).1]
  decide

/-- C8, amended: with the SAME policy of the spec's shape calculator, no
explicit padding, stride 1 and dilation 1, the first invocation of the forward
functor on an input of shape `[1,4,4,4]` computes `round_h = round_w = 2` and
`out_width = 4`, leaves the output tensor with the logical shape `[16,4,4,1]`,
and dispatches with the global work size `(4, 1)`. -/
theorem forward_scenario_same (rt : Collaborators) (T : DataType)
    (args : List (Nat × KernelArg)) (opencl_image : Nat) (image_shape : List Nat)
    (output_tensor : Tensor) :
    WinogradTransformFunctor.round_h (with_spec_calculator rt)
        { strides_ := [1, 1], padding_type_ := Padding.SAME, paddings_ := [],
          dilations_ := [1, 1], T := T, kernel_ := ⟨none, args⟩ }
        { opencl_image := opencl_image, shape := [1, 4, 4, 4], image_shape := image_shape }
      = 2
    ∧ WinogradTransformFunctor.round_w (with_spec_calculator rt)
        { strides_ := [1, 1], padding_type_ := Padding.SAME, paddings_ := [],
          dilations_ := [1, 1], T := T, kernel_ := ⟨none, args⟩ }
        { opencl_image := opencl_image, shape := [1, 4, 4, 4], image_shape := image_shape }
      = 2
    ∧ WinogradTransformFunctor.out_width (with_spec_calculator rt)
        { strides_ := [1, 1], padding_type_ := Padding.SAME, paddings_ := [],
          dilations_ := [1, 1], T := T, kernel_ := ⟨none, args⟩ }
        { opencl_image := opencl_image, shape := [1, 4, 4, 4], image_shape := image_shape }
      = 4
    ∧ (WinogradTransformFunctor.operator_call (with_spec_calculator rt)
        { strides_ := [1, 1], padding_type_ := Padding.SAME, paddings_ := [],
          dilations_ := [1, 1], T := T, kernel_ := ⟨none, args⟩ }
        { opencl_image := opencl_image, shape := [1, 4, 4, 4], image_shape := image_shape }
        output_tensor).output_tensor.shape
      = [16, 4, 4, 1]
    ∧ (dispatched (WinogradTransformFunctor.operator_call (with_spec_calculator rt)
        { strides_ := [1, 1], padding_type_ := Padding.SAME, paddings_ := [],
          dilations_ := [1, 1], T := T, kernel_ := ⟨none, args⟩ }
        { opencl_image := opencl_image, shape := [1, 4, 4, 4], image_shape := image_shape }
        output_tensor).trace).map DispatchRequest.gws
      = some [4, 1] := by
  refine ⟨rfl, rfl, rfl, rfl, ?_⟩
  · rw [(forward_dispatched _ _ _ _).1]
    rfl

/-! ## Arguments bound by the inverse functor -/

theorem inverse_bound_of_ok (rt : Collaborators) (self : WinogradInverseTransformFunctor)
    (input_tensor : Tensor) (bias : Option Tensor) (output_tensor : Tensor)
    (h : self.kernel_.get = none) (hk : self.activation_ ∈ known_activations) :
    bound (self.operator_call rt input_tensor bias output_tensor).trace
      = (0, KernelArg.image input_tensor.opencl_image)
        :: (match bias with
            | some b =>
              [(1, KernelArg.image b.opencl_image),
               (2, KernelArg.image output_tensor.opencl_image),
               (3, KernelArg.uint32 (static_cast_uint32 self.height_)),
               (4, KernelArg.uint32 (static_cast_uint32 self.width_)),
               (5, KernelArg.uint32 (uint32_mul self.round_h self.round_w)),
               (6, KernelArg.uint32 self.round_w),
               (7, KernelArg.limit self.relux_max_limit_)]
            | none =>
              [(1, KernelArg.image output_tensor.opencl_image),
               (2, KernelArg.uint32 (static_cast_uint32 self.height_)),
               (3, KernelArg.uint32 (static_cast_uint32 self.width_)),
               (4, KernelArg.uint32 (uint32_mul self.round_h self.round_w)),
               (5, KernelArg.uint32 self.round_w),
               (6, KernelArg.limit self.relux_max_limit_)])
    ∧ (self.operator_call rt input_tensor bias output_tensor).functor.kernel_.args
      = bound (self.operator_call rt input_tensor bias output_tensor).trace := by
  obtain ⟨o, ho⟩ := activation_switch_ok_of_known self.activation_ hk
    (self.base_options rt bias)
  rw [inverse_call_of_ok rt self input_tensor bias output_tensor h o ho]
  cases bias <;> exact ⟨rfl, rfl⟩

/-- C9 as stated fails on the code.  With an activation kind that has no case
label the first invocation is aborted before any `setArg`: nothing is bound.
With the configured height 131071 and width 131072, `round_h` and `round_w`
are 65536 and the `uint32_t` product bound as the sixth argument is 0, not
`65536 * 65536`.  With the configured height `2147483647` the `int` sum
`height_ + 1` wraps around and `round_h` is `3221225472`, not the ceiling
`1073741824`. -/
theorem inverse_bound_arguments_counterexample :
    bound ((sample_inverse (ActivationType.UNKNOWN 6)).operator_call sample_collaborators
        (sample_tensor 1 [16, 4, 4, 1]) none (sample_tensor 2 [])).trace = []
    ∧ (sample_inverse_sized 131071 131072).round_h = 65536
    ∧ (sample_inverse_sized 131071 131072).round_w = 65536
    ∧ bound ((sample_inverse_sized 131071 131072).operator_call sample_collaborators
        (sample_tensor 1 [16, 4, 4, 1]) none (sample_tensor 2 [])).trace
      = [(0, KernelArg.image 1), (1, KernelArg.image 2),
         (2, KernelArg.uint32 131071), (3, KernelArg.uint32 131072),
         (4, KernelArg.uint32 0), (5, KernelArg.uint32 65536),
         (6, KernelArg.limit ⟨0⟩)]
    ∧ (65536 : Nat) * 65536 = 4294967296
    ∧ (sample_inverse_sized 2147483647 4).round_h = 3221225472
    ∧ ((2147483647 : Int) + 1) / 2 = 1073741824 := by
  refine ⟨by decide, by decide, by decide, by decide, by decide, by decide, by decide⟩

/-- C9, amended: on the first invocation of an inverse functor whose activation
kind is one of the six with a case label, the `setArg` calls are, at
consecutive indices from 0: the input image, the bias image if and only if a
bias tensor was supplied, the output image, the output height, the output
width, the `uint32_t` product `round_h * round_w` (the product modulo `2^32`),
`round_w`, and the clamp limit `relux_max_limit_`: 8 arguments with a bias, 7
without, each one after the input image one index lower without a bias.  These
are the arguments bound on `kernel_`.  For configured values with
`0 ≤ height_, width_ < 2^31 - 1` the bound height and width are `height_` and
`width_`, and `round_h`, `round_w` are the least integers with
`2 * round_h ≥ height_` and `2 * round_w ≥ width_`: they come from the
configuration, not from the input tensor. -/
theorem inverse_bound_arguments (rt : Collaborators) (self : WinogradInverseTransformFunctor)
    (input_tensor : Tensor) (output_tensor : Tensor)
    (h : self.kernel_.get = none) (hk : self.activation_ ∈ known_activations) :
    (∀ b : Tensor,
      bound (self.operator_call rt input_tensor (some b) output_tensor).trace
        = [(0, KernelArg.image input_tensor.opencl_image),
           (1, KernelArg.image b.opencl_image),
           (2, KernelArg.image output_tensor.opencl_image),
           (3, KernelArg.uint32 (static_cast_uint32 self.height_)),
           (4, KernelArg.uint32 (static_cast_uint32 self.width_)),
           (5, KernelArg.uint32 (uint32_mul self.round_h self.round_w)),
           (6, KernelArg.uint32 self.round_w),
           (7, KernelArg.limit self.relux_max_limit_)]
      ∧ (self.operator_call rt input_tensor (some b) output_tensor).functor.kernel_.args
        = bound (self.operator_call rt input_tensor (some b) output_tensor).trace)
    ∧ (bound (self.operator_call rt input_tensor none output_tensor).trace
        = [(0, KernelArg.image input_tensor.opencl_image),
           (1, KernelArg.image output_tensor.opencl_image),
           (2, KernelArg.uint32 (static_cast_uint32 self.height_)),
           (3, KernelArg.uint32 (static_cast_uint32 self.width_)),
           (4, KernelArg.uint32 (uint32_mul self.round_h self.round_w)),
           (5, KernelArg.uint32 self.round_w),
           (6, KernelArg.limit self.relux_max_limit_)]
      ∧ (self.operator_call rt input_tensor none output_tensor).functor.kernel_.args
        = bound (self.operator_call rt input_tensor none output_tensor).trace)
    ∧ (0 ≤ self.height_ → self.height_ < 2147483647 →
       0 ≤ self.width_ → self.width_ < 2147483647 →
        (static_cast_uint32 self.height_ : Int) = self.height_
        ∧ (static_cast_uint32 self.width_ : Int) = self.width_
        ∧ ((self.round_h : Int) = (self.height_ + 1) / 2
          ∧ self.height_ ≤ 2 * (self.round_h : Int)
          ∧ ∀ r : Int, self.height_ ≤ 2 * r → (self.round_h : Int) ≤ r)
        ∧ ((self.round_w : Int) = (self.width_ + 1) / 2
          ∧ self.width_ ≤ 2 * (self.round_w : Int)
          ∧ ∀ r : Int, self.width_ ≤ 2 * r → (self.round_w : Int) ≤ r)
        ∧ uint32_mul self.round_h self.round_w
            = (self.round_h * self.round_w) % 4294967296) := by
  refine ⟨?_, ?_, ?_⟩
  · intro b
    exact inverse_bound_of_ok rt self input_tensor (some b) output_tensor h hk
  · exact inverse_bound_of_ok rt self input_tensor none output_tensor h hk
  · intro h0 h1 w0 w1
    exact ⟨static_cast_uint32_of_range _ h0 (by omega),
      static_cast_uint32_of_range _ w0 (by omega),
      inverse_round_is_ceiling _ h0 h1, inverse_round_is_ceiling _ w0 w1, rfl⟩

theorem inverse_bound_arguments_witness :
    ((sample_inverse ActivationType.RELUX).kernel_.get = none
      ∧ (sample_inverse ActivationType.RELUX).activation_ ∈ known_activations
      ∧ 0 ≤ (sample_inverse ActivationType.RELUX).height_
      ∧ (sample_inverse ActivationType.RELUX).height_ < 2147483647
      ∧ 0 ≤ (sample_inverse ActivationType.RELUX).width_
      ∧ (sample_inverse ActivationType.RELUX).width_ < 2147483647)
    ∧ bound ((sample_inverse ActivationType.RELUX).operator_call sample_collaborators
        (sample_tensor 1 [16, 4, 4, 1]) (some (sample_tensor 3 [4])) (sample_tensor 2 [])).trace
      = [(0, KernelArg.image 1), (1, KernelArg.image 3), (2, KernelArg.image 2),
         (3, KernelArg.uint32 4), (4, KernelArg.uint32 4), (5, KernelArg.uint32 4),
         (6, KernelArg.uint32 2), (7, KernelArg.limit ⟨0⟩)]
    ∧ bound ((sample_inverse ActivationType.RELUX).operator_call sample_collaborators
        (sample_tensor 1 [16, 4, 4, 1]) none (sample_tensor 2 [])).trace
      = [(0, KernelArg.image 1), (1, KernelArg.image 2),
         (2, KernelArg.uint32 4), (3, KernelArg.uint32 4), (4, KernelArg.uint32 4),
         (5, KernelArg.uint32 2), (6, KernelArg.limit ⟨0⟩)]
    ∧ ((sample_inverse ActivationType.RELUX).round_h : Int) = (4 + 1) / 2 := by
  have w := inverse_bound_arguments sample_collaborators (sample_inverse ActivationType.RELUX)
    (sample_tensor 1 [16, 4, 4, 1]) (sample_tensor 2 []) rfl (by decide)
  refine ⟨⟨rfl, by decide, by decide, by decide, by decide, by decide⟩, ?_, ?_, ?_⟩
  · rw [(w.1 (sample_tensor 3 [4])).1]; decide
  · rw [w.2.1.1]; decide
  · exact (w.2.2 (by decide) (by decide) (by decide) (by decide)).2.2.1.1

/-! ## The build options of the inverse functor -/

theorem remap_define_not_fixed (x t : String) (ht : t ∈ fixed_options) :
    t ≠ "-Dwinograd_inverse_transform_2x2=" ++ x := by
  intro e
  have d := congrArg String.data e
  simp only [fixed_options, List.mem_cons, List.mem_singleton, List.not_mem_nil,
    or_false] at ht
  rcases ht with r | r | r | r | r | r | r <;> subst r <;> simp at d

theorem data_type_define_not_fixed (x t : String) (ht : t ∈ fixed_options) :
    t ≠ "-DDATA_TYPE=" ++ x := by
  intro e
  have d := congrArg String.data e
  simp only [fixed_options, List.mem_cons, List.mem_singleton, List.not_mem_nil,
    or_false] at ht
  rcases ht with r | r | r | r | r | r | r <;> subst r <;> simp at d

theorem cmd_data_type_define_not_fixed (x t : String) (ht : t ∈ fixed_options) :
    t ≠ "-DCMD_DATA_TYPE=" ++ x := by
  intro e
  have d := congrArg String.data e
  simp only [fixed_options, List.mem_cons, List.mem_singleton, List.not_mem_nil,
    or_false] at ht
  rcases ht with r | r | r | r | r | r | r <;> subst r <;> simp at d

theorem mem_base_options (rt : Collaborators) (self : WinogradInverseTransformFunctor)
    (bias : Option Tensor) (s : String) :
    s ∈ self.base_options rt bias ↔
      s = "-Dwinograd_inverse_transform_2x2="
            ++ rt.MACE_OBFUSCATE_SYMBOL "winograd_inverse_transform_2x2"
      ∨ s = "-DDATA_TYPE=" ++ rt.DtToUpstreamCLDt self.T
      ∨ s = "-DCMD_DATA_TYPE=" ++ rt.DtToUpstreamCLCMDDt self.T
      ∨ s = (if bias.isSome then "-DBIAS" else "") := by
  unfold WinogradInverseTransformFunctor.base_options
  simp only [Finset.mem_insert, Finset.not_mem_empty, or_false]
  tauto

theorem fixed_mem_base_options (rt : Collaborators) (self : WinogradInverseTransformFunctor)
    (bias : Option Tensor) (t : String) (ht : t ∈ fixed_options) :
    t ∈ self.base_options rt bias ↔ t = (if bias.isSome then "-DBIAS" else "") := by
  rw [mem_base_options]
  have h1 := remap_define_not_fixed
    (rt.MACE_OBFUSCATE_SYMBOL "winograd_inverse_transform_2x2") t ht
  have h2 := data_type_define_not_fixed (rt.DtToUpstreamCLDt self.T) t ht
  have h3 := cmd_data_type_define_not_fixed (rt.DtToUpstreamCLCMDDt self.T) t ht
  simp [h1, h2, h3]

theorem inverse_built_of_ok (rt : Collaborators) (self : WinogradInverseTransformFunctor)
    (input_tensor : Tensor) (bias : Option Tensor) (output_tensor : Tensor)
    (h : self.kernel_.get = none) (built_options : Finset String)
    (ha : WinogradInverseTransformFunctor.activation_switch self.activation_
            (self.base_options rt bias) = Except.ok built_options) :
    built (self.operator_call rt input_tensor bias output_tensor).trace
      = some ("winograd_transform",
          rt.MACE_OBFUSCATE_SYMBOL "winograd_inverse_transform_2x2", built_options) := by
  rw [inverse_call_of_ok rt self input_tensor bias output_tensor h built_options ha]
  cases bias <;> rfl

theorem fixed_mem_switch (rt : Collaborators) (self : WinogradInverseTransformFunctor)
    (bias : Option Tensor) (built_options : Finset String)
    (ha : WinogradInverseTransformFunctor.activation_switch self.activation_
            (self.base_options rt bias) = Except.ok built_options)
    (t : String) (ht : t ∈ fixed_options) :
    t ∈ built_options ↔
      t = (if bias.isSome then "-DBIAS" else "")
      ∨ (self.activation_ = ActivationType.RELU ∧ t = "-DUSE_RELU")
      ∨ (self.activation_ = ActivationType.RELUX ∧ t = "-DUSE_RELUX")
      ∨ (self.activation_ = ActivationType.PRELU ∧ t = "-DUSE_PRELU")
      ∨ (self.activation_ = ActivationType.TANH ∧ t = "-DUSE_TANH")
      ∨ (self.activation_ = ActivationType.SIGMOID ∧ t = "-DUSE_SIGMOID") := by
  have hb := fixed_mem_base_options rt self bias t ht
  cases hact : self.activation_ <;>
    rw [hact] at ha <;>
    simp only [WinogradInverseTransformFunctor.activation_switch, Except.ok.injEq,
      reduceCtorEq] at ha <;>
    subst ha <;>
    simp only [Finset.mem_insert, hb, reduceCtorEq, false_and, true_and, or_false, false_or] <;>
    tauto

theorem or_rotate (x a b c d : Prop) : (x ∨ a ∨ b ∨ c ∨ d) ↔ (a ∨ b ∨ c ∨ d ∨ x) := by
  rw [or_comm]
  simp only [or_assoc]

theorem mem_switch (rt : Collaborators) (self : WinogradInverseTransformFunctor)
    (bias : Option Tensor) (built_options : Finset String)
    (ha : WinogradInverseTransformFunctor.activation_switch self.activation_
            (self.base_options rt bias) = Except.ok built_options) (s : String) :
    s ∈ built_options ↔
      s = "-Dwinograd_inverse_transform_2x2="
            ++ rt.MACE_OBFUSCATE_SYMBOL "winograd_inverse_transform_2x2"
      ∨ s = "-DDATA_TYPE=" ++ rt.DtToUpstreamCLDt self.T
      ∨ s = "-DCMD_DATA_TYPE=" ++ rt.DtToUpstreamCLCMDDt self.T
      ∨ s = (if bias.isSome then "-DBIAS" else "")
      ∨ (self.activation_ = ActivationType.RELU ∧ s = "-DUSE_RELU")
      ∨ (self.activation_ = ActivationType.RELUX ∧ s = "-DUSE_RELUX")
      ∨ (self.activation_ = ActivationType.PRELU ∧ s = "-DUSE_PRELU")
      ∨ (self.activation_ = ActivationType.TANH ∧ s = "-DUSE_TANH")
      ∨ (self.activation_ = ActivationType.SIGMOID ∧ s = "-DUSE_SIGMOID") := by
  have hbase := mem_base_options rt self bias s
  cases hact : self.activation_ <;>
    rw [hact] at ha <;>
    simp only [WinogradInverseTransformFunctor.activation_switch, Except.ok.injEq,
      reduceCtorEq] at ha <;>
    subst ha <;>
    simp only [Finset.mem_insert, hbase, reduceCtorEq, eq_self, false_and, true_and,
      or_false, false_or] <;>
    exact or_rotate _ _ _ _ _

/-- C10 as stated fails on the code: with no bias tensor and the NOOP
activation, the set handed to the program builder holds four strings, the
symbol remap, the two element-type defines and the empty string, which line 91
inserts in place of `-DBIAS`; it is not the set of the three defines. -/
theorem inverse_options_hold_empty_string_counterexample :
    built ((sample_inverse ActivationType.NOOP).operator_call sample_collaborators
        (sample_tensor 1 [16, 4, 4, 1]) none (sample_tensor 2 [])).trace
      = some ("winograd_transform", "winograd_inverse_transform_2x2",
          insert "" (insert "-DCMD_DATA_TYPE=f" (insert "-DDATA_TYPE=float"
            (insert "-Dwinograd_inverse_transform_2x2=winograd_inverse_transform_2x2" ∅))))
    ∧ (insert "" (insert "-DCMD_DATA_TYPE=f" (insert "-DDATA_TYPE=float"
          (insert "-Dwinograd_inverse_transform_2x2=winograd_inverse_transform_2x2" ∅)))
        : Finset String)
      ≠ insert "-DCMD_DATA_TYPE=f" (insert "-DDATA_TYPE=float"
          (insert "-Dwinograd_inverse_transform_2x2=winograd_inverse_transform_2x2" ∅))
    ∧ (insert "" (insert "-DCMD_DATA_TYPE=f" (insert "-DDATA_TYPE=float"
          (insert "-Dwinograd_inverse_transform_2x2=winograd_inverse_transform_2x2" ∅)))
        : Finset String).card = 4 := by
  refine ⟨?_, by decide, by decide⟩
  rw [inverse_built_of_ok sample_collaborators (sample_inverse ActivationType.NOOP)
    (sample_tensor 1 [16, 4, 4, 1]) none (sample_tensor 2 []) rfl _ rfl]
  rfl

/-- C10, amended: the build configuration passed to the program builder on the
first invocation of the inverse functor (one that is not aborted) is the set
of these strings and nothing else: the symbol remap define, the defines of
`DATA_TYPE` and `CMD_DATA_TYPE`, `-DBIAS` when a bias tensor was supplied and
the empty string when none was, and the activation define of the kind: none for
NOOP, `-DUSE_RELU`, `-DUSE_RELUX`, `-DUSE_PRELU`, `-DUSE_TANH`, `-DUSE_SIGMOID`
for the other five.  `-DBIAS` is in the set if and only if a bias tensor was
supplied; each activation define is in the set if and only if the kind is its
own, so never more than one; with no bias and NOOP the set holds exactly the
symbol remap, the two element-type defines and the empty string. -/
theorem inverse_build_options (rt : Collaborators) (self : WinogradInverseTransformFunctor)
    (input_tensor : Tensor) (bias : Option Tensor) (output_tensor : Tensor)
    (h : self.kernel_.get = none) (hk : self.activation_ ∈ known_activations) :
    ∃ built_options : Finset String,
      built (self.operator_call rt input_tensor bias output_tensor).trace
        = some ("winograd_transform",
            rt.MACE_OBFUSCATE_SYMBOL "winograd_inverse_transform_2x2", built_options)
      ∧ (∀ s : String, s ∈ built_options ↔
          s = "-Dwinograd_inverse_transform_2x2="
                ++ rt.MACE_OBFUSCATE_SYMBOL "winograd_inverse_transform_2x2"
          ∨ s = "-DDATA_TYPE=" ++ rt.DtToUpstreamCLDt self.T
          ∨ s = "-DCMD_DATA_TYPE=" ++ rt.DtToUpstreamCLCMDDt self.T
          ∨ s = (if bias.isSome then "-DBIAS" else "")
          ∨ (self.activation_ = ActivationType.RELU ∧ s = "-DUSE_RELU")
          ∨ (self.activation_ = ActivationType.RELUX ∧ s = "-DUSE_RELUX")
          ∨ (self.activation_ = ActivationType.PRELU ∧ s = "-DUSE_PRELU")
          ∨ (self.activation_ = ActivationType.TANH ∧ s = "-DUSE_TANH")
          ∨ (self.activation_ = ActivationType.SIGMOID ∧ s = "-DUSE_SIGMOID"))
      ∧ ("-DBIAS" ∈ built_options ↔ bias.isSome = true)
      ∧ ("" ∈ built_options ↔ bias.isSome = false)
      ∧ ("-DUSE_RELU" ∈ built_options ↔ self.activation_ = ActivationType.RELU)
      ∧ ("-DUSE_RELUX" ∈ built_options ↔ self.activation_ = ActivationType.RELUX)
      ∧ ("-DUSE_PRELU" ∈ built_options ↔ self.activation_ = ActivationType.PRELU)
      ∧ ("-DUSE_TANH" ∈ built_options ↔ self.activation_ = ActivationType.TANH)
      ∧ ("-DUSE_SIGMOID" ∈ built_options ↔ self.activation_ = ActivationType.SIGMOID)
      ∧ (bias = none → self.activation_ = ActivationType.NOOP →
          built_options
            = insert "" (insert ("-DCMD_DATA_TYPE=" ++ rt.DtToUpstreamCLCMDDt self.T)
                (insert ("-DDATA_TYPE=" ++ rt.DtToUpstreamCLDt self.T)
                  (insert ("-Dwinograd_inverse_transform_2x2="
                    ++ rt.MACE_OBFUSCATE_SYMBOL "winograd_inverse_transform_2x2") ∅)))) := by
  obtain ⟨o, ho⟩ := activation_switch_ok_of_known self.activation_ hk
    (self.base_options rt bias)
  have fixed := fixed_mem_switch rt self bias o ho
  refine ⟨o, inverse_built_of_ok rt self input_tensor bias output_tensor h o ho,
    ?_, ?_, ?_, ?_, ?_, ?_, ?_, ?_, ?_⟩
  · exact mem_switch rt self bias o ho
  · rw [fixed "-DBIAS" (by decide)]
    cases bias <;> simp
  · rw [fixed "" (by decide)]
    cases bias <;> simp
  · rw [fixed "-DUSE_RELU" (by decide)]
    cases bias <;> simp
  · rw [fixed "-DUSE_RELUX" (by decide)]
    cases bias <;> simp
  · rw [fixed "-DUSE_PRELU" (by decide)]
    cases bias <;> simp
  · rw [fixed "-DUSE_TANH" (by decide)]
    cases bias <;> simp
  · rw [fixed "-DUSE_SIGMOID" (by decide)]
    cases bias <;> simp
  · intro hbias hact
    subst hbias
    rw [hact] at ho
    simp only [WinogradInverseTransformFunctor.activation_switch, Except.ok.injEq] at ho
    rw [← ho]
    rfl

theorem inverse_build_options_witness :
    ((sample_inverse ActivationType.TANH).kernel_.get = none
      ∧ (sample_inverse ActivationType.TANH).activation_ ∈ known_activations
      ∧ (sample_inverse ActivationType.NOOP).kernel_.get = none
      ∧ (sample_inverse ActivationType.NOOP).activation_ ∈ known_activations
      ∧ (none : Option Tensor) = none
      ∧ (sample_inverse ActivationType.NOOP).activation_ = ActivationType.NOOP)
    ∧ (∃ built_options : Finset String,
        built ((sample_inverse ActivationType.TANH).operator_call sample_collaborators
          (sample_tensor 1 [16, 4, 4, 1]) (some (sample_tensor 3 [4]))
          (sample_tensor 2 [])).trace
          = some ("winograd_transform", "winograd_inverse_transform_2x2", built_options)
        ∧ "-DBIAS" ∈ built_options
        ∧ "-DUSE_TANH" ∈ built_options
        ∧ "-DUSE_RELU" ∉ built_options)
    ∧ (∃ built_options : Finset String,
        built ((sample_inverse ActivationType.NOOP).operator_call sample_collaborators
          (sample_tensor 1 [16, 4, 4, 1]) none (sample_tensor 2 [])).trace
          = some ("winograd_transform", "winograd_inverse_transform_2x2", built_options)
        ∧ built_options
            = insert "" (insert "-DCMD_DATA_TYPE=f" (insert "-DDATA_TYPE=float"
                (insert "-Dwinograd_inverse_transform_2x2=winograd_inverse_transform_2x2"
                  ∅)))) := by
  obtain ⟨tanh_options, h1, _, h3, _, h5, _, _, h8, _, _⟩ :=
    inverse_build_options sample_collaborators (sample_inverse ActivationType.TANH)
      (sample_tensor 1 [16, 4, 4, 1]) (some (sample_tensor 3 [4])) (sample_tensor 2 [])
      rfl (by decide)
  obtain ⟨noop_options, n1, _, _, _, _, _, _, _, _, n10⟩ :=
    inverse_build_options sample_collaborators (sample_inverse ActivationType.NOOP)
      (sample_tensor 1 [16, 4, 4, 1]) none (sample_tensor 2 []) rfl (by decide)
  refine ⟨⟨rfl, by decide, rfl, by decide, rfl, rfl⟩,
    ⟨tanh_options, h1, h3.2 rfl, h8.2 rfl, ?_⟩, ⟨noop_options, n1, n10 rfl rfl⟩⟩
  intro hmem
  have := h5.1 hmem
  revert this
  decide

end kernels
end mace
